import Mathlib

/-!
# Media.cc (WinRT API layer): shallow embedding

The wrapper classes of `webrtc/build/WinRT_gyp/Api/Media.cc` are embedded as
pure functions over explicit state.  The wrapped engine is external to the
file: whatever it answers is a parameter (`Engine`, `VoEHardware`,
`MediaStreamInterface`), and every call a wrapper forwards to it is recorded,
in program order, as an `EngineCall`.
-/

namespace webrtc_winrt_api

/-! ## Strings and marshalling -/

/-- Modelled from the spec: `Marshalling.h` is not part of the sources; the spec
calls it output-type conversion. `ToCx` turns a `std::string` into a platform
string; both are abstract strings here, so only the encoding would change. -/
def ToCx (s : String) : String := s

/-- Modelled from the spec: `Marshalling.h` is not part of the sources; `FromCx`
turns a platform string into a `std::string` (see `ToCx`). -/
def FromCx (s : String) : String := s

/-- The test `self.compare(pos, len, s) == 0` of `std::string`: the characters
of `self` from `pos`, at most `len` of them (fewer when `self` ends earlier),
are compared with the whole of `s`. -/
def compareIsZero (self : String) (pos len : Nat) (s : String) : Bool :=
  decide ((self.data.drop pos).take len = s.data)

/-- The C library `strlen` on a NUL-terminated buffer. -/
def strlen (s : String) : Nat := s.data.length

/-! ## Engine objects -/

/-- An engine track (`webrtc::AudioTrackInterface` or
`webrtc::VideoTrackInterface`), as seen through `kind()`, `id()`, `enabled()`
and `state()`. -/
structure MediaStreamTrackInterface where
  kind : String
  id : String
  enabled : Bool
  state : Nat
deriving DecidableEq, Repr

/-- An engine stream (`webrtc::MediaStreamInterface`), as seen through the
methods the wrapper reads. -/
structure MediaStreamInterface where
  label : String
  GetAudioTracks : List MediaStreamTrackInterface
  GetVideoTracks : List MediaStreamTrackInterface
  FindAudioTrack : String → Option MediaStreamTrackInterface
  FindVideoTrack : String → Option MediaStreamTrackInterface

/-- The `cricket::Device` record: a name and an id. -/
structure Device where
  name : String
  id : String
deriving DecidableEq, Repr

/-- The constructor `cricket::Device(name, int id)`: the id is the decimal text
of the integer. -/
def Device.ofInt (name : String) (id : Int) : Device := ⟨name, toString id⟩

/-- A capturer object handed out by the device manager. -/
structure VideoCapturer where
  handle : Nat
deriving DecidableEq, Repr

/-- Which overload of the stream's `AddTrack` / `RemoveTrack` is called. -/
inductive TrackClass
  | audio
  | video
deriving DecidableEq, Repr

/-- Modelled from the spec: the stream class of the wrapped engine is not part of
the sources. Its method `AddTrack(track)` looks for a track with the id of
`track` among the tracks of the same class (audio or video); when there is one
the stream is left as it is, otherwise the track is pushed at the back of that
list, where the lookup by id finds it from then on. -/
def MediaStreamInterface.AddTrack (stream : MediaStreamInterface) (cls : TrackClass)
    (track : MediaStreamTrackInterface) : MediaStreamInterface :=
  match cls with
  | TrackClass.audio =>
    if stream.GetAudioTracks.any (fun t => t.id = track.id) then stream
    else
      { stream with
        GetAudioTracks := stream.GetAudioTracks ++ [track]
        FindAudioTrack := fun id =>
          match stream.FindAudioTrack id with
          | some t => some t
          | none => if id = track.id then some track else none }
  | TrackClass.video =>
    if stream.GetVideoTracks.any (fun t => t.id = track.id) then stream
    else
      { stream with
        GetVideoTracks := stream.GetVideoTracks ++ [track]
        FindVideoTrack := fun id =>
          match stream.FindVideoTrack id with
          | some t => some t
          | none => if id = track.id then some track else none }

/-- A call forwarded to the wrapped engine. -/
inductive EngineCall
  | AddTrack (cls : TrackClass) (t : MediaStreamTrackInterface)
  | RemoveTrack (cls : TrackClass) (t : MediaStreamTrackInterface)
  | DevManagerGetVideoCaptureDevices
  | GetVoEHardware
  | GetNumOfRecordingDevices
  | GetRecordingDeviceName (i : Nat)
  | GetNumOfPlayoutDevices
  | GetPlayoutDeviceName (i : Nat)
  | SetSoundDevices (capture playout : Option Device)
  | CreateLocalMediaStream (label : String)
  | CreateAudioSource
  | CreateAudioTrack (label : String)
  | CreateVideoCapturer (d : Device)
  | CreateVideoSource (c : VideoCapturer)
  | CreateVideoTrack (label : String)
  | RemoveMediaCapture (id : String)
deriving DecidableEq, Repr

/-! ## MediaVideoTrack, MediaAudioTrack -/

/-- The wrapper `MediaVideoTrack`: it holds the engine track. -/
structure MediaVideoTrack where
  _impl : MediaStreamTrackInterface
deriving DecidableEq, Repr

/-- The wrapper `MediaAudioTrack`: it holds the engine track. -/
structure MediaAudioTrack where
  _impl : MediaStreamTrackInterface
deriving DecidableEq, Repr

/-- The getter `MediaVideoTrack::Kind`. -/
def MediaVideoTrack.Kind (self : MediaVideoTrack) : String := ToCx self._impl.kind

/-- The getter `MediaVideoTrack::Id`. -/
def MediaVideoTrack.Id (self : MediaVideoTrack) : String := ToCx self._impl.id

/-- The getter `MediaAudioTrack::Kind`. -/
def MediaAudioTrack.Kind (self : MediaAudioTrack) : String := ToCx self._impl.kind

/-- The getter `MediaAudioTrack::Id`. -/
def MediaAudioTrack.Id (self : MediaAudioTrack) : String := ToCx self._impl.id

/-- The interface `IMediaStreamTrack`, implemented by the two track wrappers. -/
inductive IMediaStreamTrack
  | audio (t : MediaAudioTrack)
  | video (t : MediaVideoTrack)
deriving DecidableEq, Repr

/-- The virtual getter `track->Kind`. -/
def IMediaStreamTrack.Kind : IMediaStreamTrack → String
  | .audio t => t.Kind
  | .video t => t.Kind

/-- What `static_cast<...^>(track)->GetImpl()` hands to the engine: the engine
track the wrapper holds. -/
def IMediaStreamTrack.GetImpl : IMediaStreamTrack → MediaStreamTrackInterface
  | .audio t => t._impl
  | .video t => t._impl

/-! ## MediaStream -/

/-- The wrapper `MediaStream`: `_impl` is the engine reference, `none` once it
has been cleared. -/
structure MediaStream where
  _impl : Option MediaStreamInterface

/-- What a `void` wrapper method leaves behind: the string it threw (if any),
the wrapper afterwards, and the calls it forwarded to the engine. -/
structure Outcome where
  failure : Option String
  stream : MediaStream
  calls : List EngineCall

/-- The method `MediaStream::GetAudioTracks`; `none` is the null result. -/
def MediaStream.GetAudioTracks (self : MediaStream) : Option (List MediaAudioTrack) :=
  match self._impl with
  | none => none
  | some impl => some (impl.GetAudioTracks.map fun track => MediaAudioTrack.mk track)

/-- The getter `MediaStream::Id`; `none` is the null result. -/
def MediaStream.Id (self : MediaStream) : Option String :=
  match self._impl with
  | none => none
  | some impl => some (ToCx impl.label)

/-- The method `MediaStream::GetVideoTracks`; `none` is the null result. -/
def MediaStream.GetVideoTracks (self : MediaStream) : Option (List MediaVideoTrack) :=
  match self._impl with
  | none => none
  | some impl => some (impl.GetVideoTracks.map fun track => MediaVideoTrack.mk track)

/-- The method `MediaStream::GetTracks`; `none` is the null result. -/
def MediaStream.GetTracks (self : MediaStream) : Option (List IMediaStreamTrack) :=
  match self._impl with
  | none => none
  | some impl =>
    some ((impl.GetAudioTracks.map fun track => IMediaStreamTrack.audio (MediaAudioTrack.mk track))
      ++ (impl.GetVideoTracks.map fun track => IMediaStreamTrack.video (MediaVideoTrack.mk track)))

/-- The method `MediaStream::GetTrackById`; `none` is the null result. -/
def MediaStream.GetTrackById (self : MediaStream) (trackId : String) : Option IMediaStreamTrack :=
  match self._impl with
  | none => none
  | some impl =>
    let trackIdStr := FromCx trackId
    match impl.FindAudioTrack trackIdStr with
    | some audioTrack => some (IMediaStreamTrack.audio (MediaAudioTrack.mk audioTrack))
    | none =>
      match impl.FindVideoTrack trackIdStr with
      | some videoTrack => some (IMediaStreamTrack.video (MediaVideoTrack.mk videoTrack))
      | none => none

/-- The method `MediaStream::AddTrack`. -/
def MediaStream.AddTrack (self : MediaStream) (track : IMediaStreamTrack) : Outcome :=
  match self._impl with
  | none => ⟨none, self, []⟩
  | some _ =>
    let kind := FromCx track.Kind
    if kind = "audio" then
      ⟨none, self, [EngineCall.AddTrack TrackClass.audio track.GetImpl]⟩
    else if kind = "video" then
      ⟨none, self, [EngineCall.AddTrack TrackClass.video track.GetImpl]⟩
    else
      ⟨some "Unknown track kind", self, []⟩

/-- The method `MediaStream::RemoveTrack`. -/
def MediaStream.RemoveTrack (self : MediaStream) (track : IMediaStreamTrack) : Outcome :=
  match self._impl with
  | none => ⟨none, self, []⟩
  | some _ =>
    let kind := FromCx track.Kind
    if kind = "audio" then
      ⟨none, self, [EngineCall.RemoveTrack TrackClass.audio track.GetImpl]⟩
    else if kind = "video" then
      ⟨none, self, [EngineCall.RemoveTrack TrackClass.video track.GetImpl]⟩
    else
      ⟨some "Unknown track kind", self, []⟩

/-- The method `MediaStream::Stop`: the engine reference is cleared. -/
def MediaStream.Stop (_self : MediaStream) : MediaStream := ⟨none⟩

/-- One of the two loops of `MediaStream::Active`: `ret` becomes true at every
track whose state is below `kEnded`. -/
def activeLoop (kEnded : Nat) (ret : Bool) : List MediaStreamTrackInterface → Bool
  | [] => ret
  | track :: rest => activeLoop kEnded (if track.state < kEnded then true else ret) rest

/-- The getter `MediaStream::Active`; the enumerator `kEnded` of the engine is a
parameter. -/
def MediaStream.Active (kEnded : Nat) (self : MediaStream) : Bool :=
  match self._impl with
  | none => false
  | some impl =>
    let ret := false
    let ret := activeLoop kEnded ret impl.GetAudioTracks
    let ret := activeLoop kEnded ret impl.GetVideoTracks
    ret

/-! ## Media: the engine as seen from `Media` -/

/-- The audio hardware interface `webrtc::VoEHardware`. A count query answers
its return value and the count it stored; a name query answers the name and the
GUID it wrote to the two buffers. -/
structure VoEHardware where
  GetNumOfRecordingDevices : Int × Int
  GetRecordingDeviceName : Nat → String × String
  GetNumOfPlayoutDevices : Int × Int
  GetPlayoutDeviceName : Nat → String × String

/-- The device classes a watcher is created for. -/
inductive DeviceClass
  | VideoCapture
  | AudioCapture
  | AudioRender
deriving DecidableEq, Repr

/-- What the wrapped engine and the host runtime answer during one operation of
`Media`. `GetVideoCaptureDevices` is the return value of the device manager and
the vector it filled (the vector is empty when it is called);
`CreateRandomId64 k` is the value of the k-th call within the operation. -/
structure Engine where
  kDefaultDeviceName : String
  DevManagerInit : Bool
  CreateWatcher : DeviceClass → Nat
  GetVideoCaptureDevices : Bool × List Device
  GetVoEHardware : Option VoEHardware
  SetSoundDevices : Option Device → Option Device → Bool
  CreateVideoCapturer : Device → Option VideoCapturer
  CreateRandomId64 : Nat → Nat
  CreateLocalMediaStream : String → MediaStreamInterface
  CreateAudioTrack : String → MediaStreamTrackInterface
  CreateVideoTrack : String → VideoCapturer → MediaStreamTrackInterface

/-- The enumeration `MediaDeviceType` carried by `OnMediaDevicesChanged`. -/
inductive MediaDeviceType
  | MediaDeviceType_AudioCapture
  | MediaDeviceType_AudioPlayout
  | MediaDeviceType_VideoCapture
deriving DecidableEq, Repr

/-- The enumeration `DeviceWatcherStatus` of the host runtime. -/
inductive DeviceWatcherStatus
  | Created
  | Started
  | EnumerationCompleted
  | Stopping
  | Stopped
  | Aborted
deriving DecidableEq, Repr

/-- A `DeviceWatcher` as an event hands it over: which object it is, and its
status. -/
structure DeviceWatcher where
  handle : Nat
  Status : DeviceWatcherStatus
deriving DecidableEq, Repr

/-- The argument of the `Removed` event. -/
structure DeviceInformationUpdate where
  Id : String
deriving DecidableEq, Repr

/-- The wrapper `MediaDevice`, built as `MediaDevice(id, name)`. -/
structure MediaDevice where
  Id : String
  Name : String
deriving DecidableEq, Repr

/-- The argument of `GetUserMedia`. -/
structure RTCMediaStreamConstraints where
  audioEnabled : Bool
  videoEnabled : Bool
deriving DecidableEq, Repr

/-- The object `Media` together with the three file-level device vectors its
methods read and write. A watcher field is `none` while it is null. -/
structure Media where
  g_videoDevices : List Device
  g_audioCapturerDevices : List Device
  g_audioPlayoutDevices : List Device
  _selectedVideoDevice : Device
  _selectedAudioCapturerDevice : Device
  _selectedAudioPlayoutDevice : Device
  _videoCaptureDeviceChanged : Bool
  _audioCaptureDeviceChanged : Bool
  _audioPlayoutDeviceChanged : Bool
  _videoCaptureWatcher : Option Nat
  _audioCaptureWatcher : Option Nat
  _audioPlayoutWatcher : Option Nat
deriving DecidableEq, Repr

/-- The format of audio track labels. -/
def kAudioLabel : String := "audio_label_%x"

/-- The format of video track labels. -/
def kVideoLabel : String := "video_label_%x"

/-- The format of stream labels. -/
def kStreamLabel : String := "stream_label_%x"

/-- The call `_snprintf(buf, size, format, id)` for a format that ends in `%x`:
the low 32 bits of the id in hexadecimal replace the `%x`, and at most `size`
characters are stored. -/
def _snprintf (size : Nat) (format : String) (id : Nat) : String :=
  String.mk (((format.data.take (format.data.length - 2)) ++ Nat.toDigits 16 (id % 2 ^ 32)).take size)

/-- The method `Media::SubscribeToMediaDeviceChanges`: three watchers are
created, subscribed to and started. -/
def Media.SubscribeToMediaDeviceChanges (self : Media) (e : Engine) : Media :=
  { self with
    _videoCaptureWatcher := some (e.CreateWatcher DeviceClass.VideoCapture)
    _audioCaptureWatcher := some (e.CreateWatcher DeviceClass.AudioCapture)
    _audioPlayoutWatcher := some (e.CreateWatcher DeviceClass.AudioRender) }

/-- The factory `Media::CreateMedia`, that is the constructor `Media::Media`,
running with the given contents of the three file-level vectors. -/
def Media.CreateMedia (e : Engine) (videoDevices audioCapturerDevices audioPlayoutDevices : List Device) :
    Media :=
  let self : Media :=
    { g_videoDevices := videoDevices
      g_audioCapturerDevices := audioCapturerDevices
      g_audioPlayoutDevices := audioPlayoutDevices
      _selectedVideoDevice := ⟨"", ""⟩
      _selectedAudioCapturerDevice := Device.ofInt e.kDefaultDeviceName 0
      _selectedAudioPlayoutDevice := Device.ofInt e.kDefaultDeviceName 0
      _videoCaptureDeviceChanged := true
      _audioCaptureDeviceChanged := true
      _audioPlayoutDeviceChanged := true
      _videoCaptureWatcher := none
      _audioCaptureWatcher := none
      _audioPlayoutWatcher := none }
  if !e.DevManagerInit then self else self.SubscribeToMediaDeviceChanges e

/-! ## Media::GetUserMedia -/

/-- The loop over the reported devices in `GetUserMedia`: index by index the
name is fetched and tested against the selected name; the loop stops at the
first index whose test succeeds. The answer is the value of `useDefault...`
after the loop, and the calls made. -/
def nameMatchLoop (getName : Nat → String × String) (call : Nat → EngineCall)
    (selectedName : String) : List Nat → Bool × List EngineCall
  | [] => (true, [])
  | i :: rest =>
    let audioDeviceName := (getName i).1
    if compareIsZero selectedName 0 (strlen audioDeviceName) audioDeviceName then
      (false, [call i])
    else
      let r := nameMatchLoop getName call selectedName rest
      (r.1, call i :: r.2)

/-- The recording half of the device check of `GetUserMedia`: the value of
`useDefaultAudioRecordingDevice` and the calls made. -/
def Media.checkRecordingDevice (self : Media) (voiceEngineHardware : VoEHardware) :
    Bool × List EngineCall :=
  if voiceEngineHardware.GetNumOfRecordingDevices.1 = 0 then
    let deviceCount := voiceEngineHardware.GetNumOfRecordingDevices.2
    let r := nameMatchLoop voiceEngineHardware.GetRecordingDeviceName
      EngineCall.GetRecordingDeviceName self._selectedAudioCapturerDevice.name
      (List.range deviceCount.toNat)
    (r.1, EngineCall.GetNumOfRecordingDevices :: r.2)
  else
    (true, [EngineCall.GetNumOfRecordingDevices])

/-- The playout half of the device check of `GetUserMedia`: the value of
`useDefaultAudioPlayoutDevice` and the calls made. -/
def Media.checkPlayoutDevice (self : Media) (voiceEngineHardware : VoEHardware) :
    Bool × List EngineCall :=
  if voiceEngineHardware.GetNumOfPlayoutDevices.1 = 0 then
    let deviceCount := voiceEngineHardware.GetNumOfPlayoutDevices.2
    let r := nameMatchLoop voiceEngineHardware.GetPlayoutDeviceName
      EngineCall.GetPlayoutDeviceName self._selectedAudioPlayoutDevice.name
      (List.range deviceCount.toNat)
    (r.1, EngineCall.GetNumOfPlayoutDevices :: r.2)
  else
    (true, [EngineCall.GetNumOfPlayoutDevices])

/-- The device check of `GetUserMedia` (from `GetVoEHardware` to the end of the
`else` block): the values of `useDefaultAudioRecordingDevice` and
`useDefaultAudioPlayoutDevice`, and the calls made. -/
def Media.checkAudioDevices (self : Media) (e : Engine) : Bool × Bool × List EngineCall :=
  match e.GetVoEHardware with
  | none => (true, true, [EngineCall.GetVoEHardware])
  | some voiceEngineHardware =>
    let recording := self.checkRecordingDevice voiceEngineHardware
    let playout := self.checkPlayoutDevice voiceEngineHardware
    (recording.1, playout.1, EngineCall.GetVoEHardware :: (recording.2 ++ playout.2))

/-- The block `if (mediaStreamConstraints->audioEnabled)` of `GetUserMedia`, run
on the local stream `stream`: the stream after `stream->AddTrack(audio_track)`,
and the calls the block makes, in order. `rand` is the random id the label is
built from. -/
def Media.userMediaAudio (self : Media) (e : Engine) (rand : Nat)
    (stream : MediaStreamInterface) : MediaStreamInterface × List EngineCall :=
  let check := self.checkAudioDevices e
  let useDefaultAudioRecordingDevice := check.1
  let useDefaultAudioPlayoutDevice := check.2.1
  let audioCaptureDevice :=
    if useDefaultAudioRecordingDevice then none else some self._selectedAudioCapturerDevice
  let audioPlayoutDevice :=
    if useDefaultAudioPlayoutDevice then none else some self._selectedAudioPlayoutDevice
  let audioLabel := _snprintf 32 kAudioLabel rand
  let audio_track := e.CreateAudioTrack audioLabel
  (stream.AddTrack TrackClass.audio audio_track,
    check.2.2 ++
      [EngineCall.SetSoundDevices audioCaptureDevice audioPlayoutDevice,
       EngineCall.CreateAudioSource,
       EngineCall.CreateAudioTrack audioLabel,
       EngineCall.AddTrack TrackClass.audio audio_track])

/-- The loop "select the first video device as the capturer": the devices are
tried in order until the device manager hands out a capturer. -/
def firstCapturerLoop (e : Engine) : List Device → Option VideoCapturer × List EngineCall
  | [] => (none, [])
  | videoDev :: rest =>
    match e.CreateVideoCapturer videoDev with
    | some videoCapturer => (some videoCapturer, [EngineCall.CreateVideoCapturer videoDev])
    | none =>
      let r := firstCapturerLoop e rest
      (r.1, EngineCall.CreateVideoCapturer videoDev :: r.2)

/-- The block `if (mediaStreamConstraints->videoEnabled)` of `GetUserMedia`, run
on the local stream `stream`: the stream after the block (after
`stream->AddTrack(video_track)` when there is a capturer), and the calls the
block makes, in order. -/
def Media.userMediaVideo (self : Media) (e : Engine) (rand : Nat)
    (stream : MediaStreamInterface) : MediaStreamInterface × List EngineCall :=
  let r : Option VideoCapturer × List EngineCall :=
    if self._selectedVideoDevice.id = "" then
      firstCapturerLoop e self.g_videoDevices
    else
      (e.CreateVideoCapturer self._selectedVideoDevice,
        [EngineCall.CreateVideoCapturer self._selectedVideoDevice])
  let videoLabel := _snprintf 32 kVideoLabel rand
  match r.1 with
  | some videoCapturer =>
    let video_track := e.CreateVideoTrack videoLabel videoCapturer
    (stream.AddTrack TrackClass.video video_track,
      r.2 ++
        [EngineCall.CreateVideoSource videoCapturer,
         EngineCall.CreateVideoTrack videoLabel,
         EngineCall.AddTrack TrackClass.video video_track])
  | none => (stream, r.2)

/-- What `GetUserMedia` hands back: the stream wrapper and the calls made. -/
structure UserMediaResult where
  stream : MediaStream
  calls : List EngineCall

/-- The method `Media::GetUserMedia`, run to completion on the global thread. The
stream wrapped at the end is the local stream as the two blocks left it. -/
def Media.GetUserMedia (self : Media) (e : Engine)
    (mediaStreamConstraints : RTCMediaStreamConstraints) : UserMediaResult :=
  let streamLabel := _snprintf 32 kStreamLabel (e.CreateRandomId64 0)
  let stream := e.CreateLocalMediaStream streamLabel
  let audio : MediaStreamInterface × List EngineCall :=
    if mediaStreamConstraints.audioEnabled then
      self.userMediaAudio e (e.CreateRandomId64 1) stream
    else (stream, [])
  let video : MediaStreamInterface × List EngineCall :=
    if mediaStreamConstraints.videoEnabled then
      self.userMediaVideo e
        (e.CreateRandomId64 (if mediaStreamConstraints.audioEnabled then 2 else 1)) audio.1
    else (audio.1, [])
  ⟨MediaStream.mk (some video.1),
    EngineCall.CreateLocalMediaStream streamLabel :: (audio.2 ++ video.2)⟩

/-! ## Media: device lists and selection -/

/-- What a `Get...Devices` method hands back: the returned vector, the object
afterwards, and the calls made. -/
structure DevicesResult where
  ret : List MediaDevice
  media : Media
  calls : List EngineCall
deriving DecidableEq, Repr

/-- The loop that closes every `Get...Devices` method: one `MediaDevice(id, name)`
is appended per cached device. -/
def toMediaDevices (devices : List Device) : List MediaDevice :=
  devices.map fun videoDev => MediaDevice.mk (ToCx videoDev.id) (ToCx videoDev.name)

/-- The method `Media::GetVideoCaptureDevices`. -/
def Media.GetVideoCaptureDevices (self : Media) (e : Engine) : DevicesResult :=
  let r : Media × List EngineCall :=
    if self._videoCaptureDeviceChanged then
      ({ self with
          g_videoDevices := e.GetVideoCaptureDevices.2
          _videoCaptureDeviceChanged := false },
        [EngineCall.DevManagerGetVideoCaptureDevices])
    else (self, [])
  ⟨toMediaDevices r.1.g_videoDevices, r.1, r.2⟩

/-- The body run on the global thread by the two audio `Get...Devices` methods,
on a vector that has just been cleared: the vector afterwards and the calls
made. One `cricket::Device(name, guid)` is pushed per index below the count. -/
def enumerateAudioDevices (hardware : Option VoEHardware)
    (getNum : VoEHardware → Int × Int) (getName : VoEHardware → Nat → String × String)
    (numCall : EngineCall) (nameCall : Nat → EngineCall) : List Device × List EngineCall :=
  match hardware with
  | none => ([], [EngineCall.GetVoEHardware])
  | some voiceEngineHardware =>
    if (getNum voiceEngineHardware).1 = 0 then
      let indices := List.range (getNum voiceEngineHardware).2.toNat
      (indices.map fun i =>
          Device.mk (getName voiceEngineHardware i).1 (getName voiceEngineHardware i).2,
        EngineCall.GetVoEHardware :: numCall :: indices.map nameCall)
    else
      ([], [EngineCall.GetVoEHardware, numCall])

/-- The method `Media::GetAudioCaptureDevices`. -/
def Media.GetAudioCaptureDevices (self : Media) (e : Engine) : DevicesResult :=
  let r : Media × List EngineCall :=
    if self._audioCaptureDeviceChanged then
      let en := enumerateAudioDevices e.GetVoEHardware VoEHardware.GetNumOfRecordingDevices
        VoEHardware.GetRecordingDeviceName EngineCall.GetNumOfRecordingDevices
        EngineCall.GetRecordingDeviceName
      ({ self with
          g_audioCapturerDevices := en.1
          _audioCaptureDeviceChanged := false },
        en.2)
    else (self, [])
  ⟨toMediaDevices r.1.g_audioCapturerDevices, r.1, r.2⟩

/-- The method `Media::GetAudioPlayoutDevices`. -/
def Media.GetAudioPlayoutDevices (self : Media) (e : Engine) : DevicesResult :=
  let r : Media × List EngineCall :=
    if self._audioPlayoutDeviceChanged then
      let en := enumerateAudioDevices e.GetVoEHardware VoEHardware.GetNumOfPlayoutDevices
        VoEHardware.GetPlayoutDeviceName EngineCall.GetNumOfPlayoutDevices
        EngineCall.GetPlayoutDeviceName
      ({ self with
          g_audioPlayoutDevices := en.1
          _audioPlayoutDeviceChanged := false },
        en.2)
    else (self, [])
  ⟨toMediaDevices r.1.g_audioPlayoutDevices, r.1, r.2⟩

/-- The search loop of `SelectVideoDevice`: `selected` is the value the field
holds when the loop starts; the loop stops at the first device with the id. -/
def selectVideoLoop (id : String) (selected : Device) : List Device → Device
  | [] => selected
  | videoDev :: rest => if videoDev.id = id then videoDev else selectVideoLoop id selected rest

/-- The method `Media::SelectVideoDevice`. -/
def Media.SelectVideoDevice (self : Media) (device : MediaDevice) : Media :=
  let id := FromCx device.Id
  { self with _selectedVideoDevice := selectVideoLoop id ⟨"", ""⟩ self.g_videoDevices }

/-- The search loop of the two audio selection methods: the selected device
after the loop and the value returned. -/
def selectAudioLoop (id : String) (selected : Device) : List Device → Device × Bool
  | [] => (selected, false)
  | audioDevice :: rest =>
    if audioDevice.id = id then (audioDevice, true) else selectAudioLoop id selected rest

/-- The method `Media::SelectAudioDevice`: the object afterwards and the value
returned. -/
def Media.SelectAudioDevice (self : Media) (e : Engine) (device : MediaDevice) : Media × Bool :=
  let id := FromCx device.Id
  let r := selectAudioLoop id ⟨e.kDefaultDeviceName, ""⟩ self.g_audioCapturerDevices
  ({ self with _selectedAudioCapturerDevice := r.1 }, r.2)

/-- The method `Media::SelectAudioPlayoutDevice`: the object afterwards and the
value returned. -/
def Media.SelectAudioPlayoutDevice (self : Media) (e : Engine) (device : MediaDevice) :
    Media × Bool :=
  let id := FromCx device.Id
  let r := selectAudioLoop id ⟨e.kDefaultDeviceName, ""⟩ self.g_audioPlayoutDevices
  ({ self with _selectedAudioPlayoutDevice := r.1 }, r.2)

/-! ## Media: device-watcher events -/

/-- What an event handler leaves behind: the object afterwards, the
`OnMediaDevicesChanged` notifications raised, and the calls made. -/
structure EventResult where
  media : Media
  notifications : List MediaDeviceType
  calls : List EngineCall
deriving DecidableEq, Repr

/-- The handler `Media::OnMediaDeviceAdded`. -/
def Media.OnMediaDeviceAdded (self : Media) (sender : DeviceWatcher) : EventResult :=
  if sender.Status ≠ DeviceWatcherStatus.EnumerationCompleted then
    ⟨self, [], []⟩
  else if some sender.handle = self._videoCaptureWatcher then
    ⟨{ self with _videoCaptureDeviceChanged := true },
      [MediaDeviceType.MediaDeviceType_VideoCapture], []⟩
  else if some sender.handle = self._audioCaptureWatcher then
    ⟨{ self with _audioCaptureDeviceChanged := true },
      [MediaDeviceType.MediaDeviceType_AudioCapture], []⟩
  else if some sender.handle = self._audioPlayoutWatcher then
    ⟨{ self with _audioPlayoutDeviceChanged := true },
      [MediaDeviceType.MediaDeviceType_AudioPlayout], []⟩
  else
    ⟨self, [], []⟩

/-- The handler `Media::OnMediaDeviceRemoved`. -/
def Media.OnMediaDeviceRemoved (self : Media) (sender : DeviceWatcher)
    (updateInfo : DeviceInformationUpdate) : EventResult :=
  if sender.Status ≠ DeviceWatcherStatus.EnumerationCompleted then
    ⟨self, [], []⟩
  else if some sender.handle = self._videoCaptureWatcher then
    ⟨{ self with _videoCaptureDeviceChanged := true },
      [MediaDeviceType.MediaDeviceType_VideoCapture],
      [EngineCall.RemoveMediaCapture updateInfo.Id]⟩
  else if some sender.handle = self._audioCaptureWatcher then
    ⟨{ self with _audioCaptureDeviceChanged := true },
      [MediaDeviceType.MediaDeviceType_AudioCapture], []⟩
  else if some sender.handle = self._audioPlayoutWatcher then
    ⟨{ self with _audioPlayoutDeviceChanged := true },
      [MediaDeviceType.MediaDeviceType_AudioPlayout], []⟩
  else
    ⟨self, [], []⟩

/-- The watcher field of `Media` that `SubscribeToMediaDeviceChanges` creates
for a device type. -/
def Media.watcherOf (self : Media) : MediaDeviceType → Option Nat
  | .MediaDeviceType_VideoCapture => self._videoCaptureWatcher
  | .MediaDeviceType_AudioCapture => self._audioCaptureWatcher
  | .MediaDeviceType_AudioPlayout => self._audioPlayoutWatcher

/-- The changed flag of a device type. -/
def Media.changedFlag (self : Media) : MediaDeviceType → Bool
  | .MediaDeviceType_VideoCapture => self._videoCaptureDeviceChanged
  | .MediaDeviceType_AudioCapture => self._audioCaptureDeviceChanged
  | .MediaDeviceType_AudioPlayout => self._audioPlayoutDeviceChanged

/-- The object with the changed flag of one device type set to true and nothing
else touched. -/
def Media.withChanged (self : Media) : MediaDeviceType → Media
  | .MediaDeviceType_VideoCapture => { self with _videoCaptureDeviceChanged := true }
  | .MediaDeviceType_AudioCapture => { self with _audioCaptureDeviceChanged := true }
  | .MediaDeviceType_AudioPlayout => { self with _audioPlayoutDeviceChanged := true }

/-- The three watchers of the object are three objects: no two watcher fields
that are not null are the same. -/
def Media.watchersDistinct (self : Media) : Prop :=
  (self._videoCaptureWatcher = none ∨ self._videoCaptureWatcher ≠ self._audioCaptureWatcher) ∧
  (self._videoCaptureWatcher = none ∨ self._videoCaptureWatcher ≠ self._audioPlayoutWatcher) ∧
  (self._audioCaptureWatcher = none ∨ self._audioCaptureWatcher ≠ self._audioPlayoutWatcher)

instance (self : Media) : Decidable self.watchersDistinct := by
  unfold Media.watchersDistinct
  infer_instance

/-- Two states of the object hold the same cached vectors, the same selected
devices and the same watchers. -/
def Media.sameDevices (a b : Media) : Prop :=
  a.g_videoDevices = b.g_videoDevices ∧
  a.g_audioCapturerDevices = b.g_audioCapturerDevices ∧
  a.g_audioPlayoutDevices = b.g_audioPlayoutDevices ∧
  a._selectedVideoDevice = b._selectedVideoDevice ∧
  a._selectedAudioCapturerDevice = b._selectedAudioCapturerDevice ∧
  a._selectedAudioPlayoutDevice = b._selectedAudioPlayoutDevice ∧
  a._videoCaptureWatcher = b._videoCaptureWatcher ∧
  a._audioCaptureWatcher = b._audioCaptureWatcher ∧
  a._audioPlayoutWatcher = b._audioPlayoutWatcher

instance (a b : Media) : Decidable (a.sameDevices b) := by
  unfold Media.sameDevices
  infer_instance

/-! ## MediaStream::GetTrackById: the lookups made -/

/-- A lookup `GetTrackById` makes on the engine stream. -/
inductive StreamLookup
  | FindAudioTrack (id : String)
  | FindVideoTrack (id : String)
deriving DecidableEq, Repr

/-- The lookups `MediaStream::GetTrackById` makes on the engine stream, in
order: the same control flow as `MediaStream.GetTrackById`, read for its
calls. -/
def MediaStream.GetTrackByIdLookups (self : MediaStream) (trackId : String) : List StreamLookup :=
  match self._impl with
  | none => []
  | some impl =>
    let trackIdStr := FromCx trackId
    match impl.FindAudioTrack trackIdStr with
    | some _ => [StreamLookup.FindAudioTrack trackIdStr]
    | none => [StreamLookup.FindAudioTrack trackIdStr, StreamLookup.FindVideoTrack trackIdStr]

/-! ## MediaDevice::GetVideoCaptureCapabilities -/

/-- The two device pointers of a `SetSoundDevices` call (`none` is the null
pointer, that is the default device); nothing for any other call. -/
def EngineCall.soundDevices : EngineCall → Option (Option Device × Option Device)
  | .SetSoundDevices capture playout => some (capture, playout)
  | _ => none

/-- The arguments of the `SetSoundDevices` calls of a record, in order. -/
def soundDevicesPassed (calls : List EngineCall) : List (Option Device × Option Device) :=
  calls.filterMap EngineCall.soundDevices

/-- The device of a `CreateVideoCapturer` call; nothing for any other call. -/
def EngineCall.capturerDevice : EngineCall → Option Device
  | .CreateVideoCapturer d => some d
  | _ => none

/-- The devices the device manager was asked a capturer for, in order. -/
def capturersTried (calls : List EngineCall) : List Device :=
  calls.filterMap EngineCall.capturerDevice

/-- The engine track of an `AddTrack` call of the given overload; nothing for
any other call. -/
def EngineCall.addedTrack (cls : TrackClass) : EngineCall → Option MediaStreamTrackInterface
  | .AddTrack c t => if c = cls then some t else none
  | _ => none

/-- The engine tracks added to a stream through the given overload, in order. -/
def tracksAdded (cls : TrackClass) (calls : List EngineCall) : List MediaStreamTrackInterface :=
  calls.filterMap (EngineCall.addedTrack cls)

/-! ## Concrete objects the statements are evaluated at -/

/-- A hardware interface that reports one recording device, "Microphone", and
one playout device, "Speakers". -/
def sampleHardware : VoEHardware where
  GetNumOfRecordingDevices := (0, 1)
  GetRecordingDeviceName := fun _ => ("Microphone", "guid-mic")
  GetNumOfPlayoutDevices := (0, 1)
  GetPlayoutDeviceName := fun _ => ("Speakers", "guid-spk")

/-- An engine with the hardware `sampleHardware`, two video devices, and a
device manager that hands out a capturer for the device "cam1" only. -/
def sampleEngine : Engine where
  kDefaultDeviceName := ""
  DevManagerInit := true
  CreateWatcher := fun c =>
    match c with
    | DeviceClass.VideoCapture => 1
    | DeviceClass.AudioCapture => 2
    | DeviceClass.AudioRender => 3
  GetVideoCaptureDevices := (true, [⟨"Front", "cam0"⟩, ⟨"Back", "cam1"⟩])
  GetVoEHardware := some sampleHardware
  SetSoundDevices := fun _ _ => true
  CreateVideoCapturer := fun d => if d.id = "cam1" then some ⟨7⟩ else none
  CreateRandomId64 := fun k => 255 + k
  CreateLocalMediaStream := fun l => ⟨l, [], [], fun _ => none, fun _ => none⟩
  CreateAudioTrack := fun l => ⟨"audio", l, true, 1⟩
  CreateVideoTrack := fun l _ => ⟨"video", l, true, 1⟩

/-- An engine like `sampleEngine` whose hardware interface is not available. -/
def sampleEngineNoHardware : Engine :=
  { sampleEngine with GetVoEHardware := none }

/-- An object whose caches have been filled from `sampleEngine`, with the
capture device "Microphone (USB)" selected, which the hardware does not
report. -/
def sampleMedia : Media where
  g_videoDevices := [⟨"Front", "cam0"⟩, ⟨"Back", "cam1"⟩]
  g_audioCapturerDevices := [⟨"Microphone", "guid-mic"⟩, ⟨"Microphone (USB)", "guid-usb"⟩]
  g_audioPlayoutDevices := [⟨"Speakers", "guid-spk"⟩]
  _selectedVideoDevice := ⟨"", ""⟩
  _selectedAudioCapturerDevice := ⟨"Microphone (USB)", "guid-usb"⟩
  _selectedAudioPlayoutDevice := ⟨"Speakers", "guid-spk"⟩
  _videoCaptureDeviceChanged := false
  _audioCaptureDeviceChanged := false
  _audioPlayoutDeviceChanged := false
  _videoCaptureWatcher := some 1
  _audioCaptureWatcher := some 2
  _audioPlayoutWatcher := some 3

/-- An engine stream with one live audio track "a0" and one ended video track
"v0" (with `kEnded = 2`). -/
def sampleStream : MediaStreamInterface where
  label := "stream_label_ff"
  GetAudioTracks := [⟨"audio", "a0", true, 1⟩]
  GetVideoTracks := [⟨"video", "v0", true, 2⟩]
  FindAudioTrack := fun id => if id = "a0" then some ⟨"audio", "a0", true, 1⟩ else none
  FindVideoTrack := fun id => if id = "v0" then some ⟨"video", "v0", true, 2⟩ else none

/-! ## MediaStream: a stopped stream is inert -/

/-- C1: once `Stop` has been called, whatever the stream held before,
`GetAudioTracks`, `GetVideoTracks`, `GetTracks`, `GetTrackById` (for every id)
and `Id` return null and `Active` returns false. -/
theorem C1_stopped_stream_getters_empty (kEnded : Nat) (s : MediaStream) :
    s.Stop.GetAudioTracks = none ∧ s.Stop.GetVideoTracks = none ∧ s.Stop.GetTracks = none ∧
    (∀ trackId : String, s.Stop.GetTrackById trackId = none) ∧ s.Stop.Id = none ∧
    s.Stop.Active kEnded = false := by
  refine ⟨rfl, rfl, rfl, fun _ => rfl, rfl, rfl⟩

/-- C2: on a stream on which `Stop` has been called, `AddTrack` and `RemoveTrack`
are no-ops for every track, whatever its kind: nothing is thrown, no call
reaches the engine and the stream is as it was. -/
theorem C2_stopped_stream_add_remove_noop (s : MediaStream) (track : IMediaStreamTrack) :
    (s.Stop.AddTrack track).failure = none ∧ (s.Stop.AddTrack track).calls = [] ∧
    (s.Stop.AddTrack track).stream = s.Stop ∧
    (s.Stop.RemoveTrack track).failure = none ∧ (s.Stop.RemoveTrack track).calls = [] ∧
    (s.Stop.RemoveTrack track).stream = s.Stop := by
  refine ⟨rfl, rfl, rfl, rfl, rfl, rfl⟩

/-- C3: on a stream that holds its engine reference, `AddTrack` (and likewise
`RemoveTrack`) throws the string "Unknown track kind" exactly when the kind of
the track is neither "audio" nor "video"; for one of these two kinds it throws
nothing and forwards exactly one `AddTrack` (resp. `RemoveTrack`) call, with the
engine track of the wrapper; and when it throws, no call has reached the
engine. -/
theorem C3_unknown_track_kind (impl : MediaStreamInterface) (track : IMediaStreamTrack) :
    (((MediaStream.mk (some impl)).AddTrack track).failure = some "Unknown track kind" ↔
      (track.Kind ≠ "audio" ∧ track.Kind ≠ "video")) ∧
    (((MediaStream.mk (some impl)).AddTrack track).failure = none ∨
      ((MediaStream.mk (some impl)).AddTrack track).failure = some "Unknown track kind") ∧
    (track.Kind = "audio" →
      ((MediaStream.mk (some impl)).AddTrack track).failure = none ∧
      ((MediaStream.mk (some impl)).AddTrack track).calls =
        [EngineCall.AddTrack TrackClass.audio track.GetImpl]) ∧
    (track.Kind = "video" →
      ((MediaStream.mk (some impl)).AddTrack track).failure = none ∧
      ((MediaStream.mk (some impl)).AddTrack track).calls =
        [EngineCall.AddTrack TrackClass.video track.GetImpl]) ∧
    (((MediaStream.mk (some impl)).AddTrack track).failure ≠ none →
      ((MediaStream.mk (some impl)).AddTrack track).calls = []) ∧
    (((MediaStream.mk (some impl)).RemoveTrack track).failure = some "Unknown track kind" ↔
      (track.Kind ≠ "audio" ∧ track.Kind ≠ "video")) ∧
    (((MediaStream.mk (some impl)).RemoveTrack track).failure = none ∨
      ((MediaStream.mk (some impl)).RemoveTrack track).failure = some "Unknown track kind") ∧
    (track.Kind = "audio" →
      ((MediaStream.mk (some impl)).RemoveTrack track).failure = none ∧
      ((MediaStream.mk (some impl)).RemoveTrack track).calls =
        [EngineCall.RemoveTrack TrackClass.audio track.GetImpl]) ∧
    (track.Kind = "video" →
      ((MediaStream.mk (some impl)).RemoveTrack track).failure = none ∧
      ((MediaStream.mk (some impl)).RemoveTrack track).calls =
        [EngineCall.RemoveTrack TrackClass.video track.GetImpl]) ∧
    (((MediaStream.mk (some impl)).RemoveTrack track).failure ≠ none →
      ((MediaStream.mk (some impl)).RemoveTrack track).calls = []) := by
  simp only [MediaStream.AddTrack, MediaStream.RemoveTrack, FromCx]
  by_cases ha : track.Kind = "audio"
  · simp [ha]
  · by_cases hv : track.Kind = "video"
    · simp [hv]
    · simp [ha, hv]

/-- C3 at concrete tracks: a track of kind "audio" is forwarded, a track of kind
"data" makes `AddTrack` throw. -/
theorem C3_unknown_track_kind_witness :
    ((MediaStream.mk (some ⟨"s", [], [], fun _ => none, fun _ => none⟩)).AddTrack
        (IMediaStreamTrack.audio ⟨⟨"audio", "a0", true, 1⟩⟩)).calls =
      [EngineCall.AddTrack TrackClass.audio ⟨"audio", "a0", true, 1⟩] ∧
    ((MediaStream.mk (some ⟨"s", [], [], fun _ => none, fun _ => none⟩)).AddTrack
        (IMediaStreamTrack.audio ⟨⟨"data", "d0", true, 1⟩⟩)).failure =
      some "Unknown track kind" :=
  ⟨((C3_unknown_track_kind ⟨"s", [], [], fun _ => none, fun _ => none⟩
      (IMediaStreamTrack.audio ⟨⟨"audio", "a0", true, 1⟩⟩)).2.2.1 (by decide)).2,
   (C3_unknown_track_kind ⟨"s", [], [], fun _ => none, fun _ => none⟩
      (IMediaStreamTrack.audio ⟨⟨"data", "d0", true, 1⟩⟩)).1.2 (by decide)⟩

/-! ## Media: the changed flags gate the enumeration -/

/-- The body of the audio enumeration always starts by asking the engine for the
hardware interface. -/
theorem enumerateAudioDevices_asks_hardware (hardware : Option VoEHardware)
    (getNum : VoEHardware → Int × Int) (getName : VoEHardware → Nat → String × String)
    (numCall : EngineCall) (nameCall : Nat → EngineCall) :
    EngineCall.GetVoEHardware ∈ (enumerateAudioDevices hardware getNum getName numCall nameCall).2 := by
  unfold enumerateAudioDevices
  cases hardware with
  | none => simp
  | some hw => by_cases h : (getNum hw).1 = 0 <;> simp [h]

/-- The calls and the flag of the three `Get...Devices` methods: a method goes to
the engine exactly when its flag is set, clears the flag, and a second call in a
row makes no call and returns the list of the first. -/
theorem changed_flag_gates_calls (m : Media) (e e2 : Engine)
    (v a p : List Device) :
    ((EngineCall.DevManagerGetVideoCaptureDevices ∈ (m.GetVideoCaptureDevices e).calls ↔
        m._videoCaptureDeviceChanged = true) ∧
      ((m.GetVideoCaptureDevices e).calls ≠ [] ↔ m._videoCaptureDeviceChanged = true) ∧
      (m._videoCaptureDeviceChanged = false → (m.GetVideoCaptureDevices e).media = m) ∧
      (m.GetVideoCaptureDevices e).media._videoCaptureDeviceChanged = false ∧
      EngineCall.DevManagerGetVideoCaptureDevices ∈
        ((Media.CreateMedia e v a p).GetVideoCaptureDevices e2).calls ∧
      ((m.GetVideoCaptureDevices e).media.GetVideoCaptureDevices e2).calls = [] ∧
      ((m.GetVideoCaptureDevices e).media.GetVideoCaptureDevices e2).ret =
        (m.GetVideoCaptureDevices e).ret) ∧
    ((EngineCall.GetVoEHardware ∈ (m.GetAudioCaptureDevices e).calls ↔
        m._audioCaptureDeviceChanged = true) ∧
      ((m.GetAudioCaptureDevices e).calls ≠ [] ↔ m._audioCaptureDeviceChanged = true) ∧
      (m._audioCaptureDeviceChanged = false → (m.GetAudioCaptureDevices e).media = m) ∧
      (m.GetAudioCaptureDevices e).media._audioCaptureDeviceChanged = false ∧
      EngineCall.GetVoEHardware ∈
        ((Media.CreateMedia e v a p).GetAudioCaptureDevices e2).calls ∧
      ((m.GetAudioCaptureDevices e).media.GetAudioCaptureDevices e2).calls = [] ∧
      ((m.GetAudioCaptureDevices e).media.GetAudioCaptureDevices e2).ret =
        (m.GetAudioCaptureDevices e).ret) ∧
    ((EngineCall.GetVoEHardware ∈ (m.GetAudioPlayoutDevices e).calls ↔
        m._audioPlayoutDeviceChanged = true) ∧
      ((m.GetAudioPlayoutDevices e).calls ≠ [] ↔ m._audioPlayoutDeviceChanged = true) ∧
      (m._audioPlayoutDeviceChanged = false → (m.GetAudioPlayoutDevices e).media = m) ∧
      (m.GetAudioPlayoutDevices e).media._audioPlayoutDeviceChanged = false ∧
      EngineCall.GetVoEHardware ∈
        ((Media.CreateMedia e v a p).GetAudioPlayoutDevices e2).calls ∧
      ((m.GetAudioPlayoutDevices e).media.GetAudioPlayoutDevices e2).calls = [] ∧
      ((m.GetAudioPlayoutDevices e).media.GetAudioPlayoutDevices e2).ret =
        (m.GetAudioPlayoutDevices e).ret) := by
  have hfresh : (Media.CreateMedia e v a p)._videoCaptureDeviceChanged = true ∧
      (Media.CreateMedia e v a p)._audioCaptureDeviceChanged = true ∧
      (Media.CreateMedia e v a p)._audioPlayoutDeviceChanged = true := by
    unfold Media.CreateMedia Media.SubscribeToMediaDeviceChanges
    cases e.DevManagerInit <;> simp
  refine ⟨?_, ?_, ?_⟩
  · have h1 := hfresh.1
    unfold Media.GetVideoCaptureDevices
    cases hc : m._videoCaptureDeviceChanged <;> simp [hc, h1]
  · have h1 := hfresh.2.1
    have hm := enumerateAudioDevices_asks_hardware
    have hne : ∀ (hardware : Option VoEHardware) (getNum : VoEHardware → Int × Int)
        (getName : VoEHardware → Nat → String × String) (numCall : EngineCall)
        (nameCall : Nat → EngineCall),
        (enumerateAudioDevices hardware getNum getName numCall nameCall).2 ≠ [] :=
      fun hardware getNum getName numCall nameCall =>
        List.ne_nil_of_mem (hm hardware getNum getName numCall nameCall)
    unfold Media.GetAudioCaptureDevices
    cases hc : m._audioCaptureDeviceChanged <;> simp [hc, h1, hm, hne]
  · have h1 := hfresh.2.2
    have hm := enumerateAudioDevices_asks_hardware
    have hne : ∀ (hardware : Option VoEHardware) (getNum : VoEHardware → Int × Int)
        (getName : VoEHardware → Nat → String × String) (numCall : EngineCall)
        (nameCall : Nat → EngineCall),
        (enumerateAudioDevices hardware getNum getName numCall nameCall).2 ≠ [] :=
      fun hardware getNum getName numCall nameCall =>
        List.ne_nil_of_mem (hm hardware getNum getName numCall nameCall)
    unfold Media.GetAudioPlayoutDevices
    cases hc : m._audioPlayoutDeviceChanged <;> simp [hc, h1, hm, hne]

/-- What a refresh stores and returns: with its flag set, a `Get...Devices`
method puts what the engine answers into the cached vector of its type and
returns that; with its flag clear it returns the cached vector it found. -/
theorem refresh_takes_engine_answer (m : Media) (e : Engine) :
    ((m._videoCaptureDeviceChanged = true →
        (m.GetVideoCaptureDevices e).media.g_videoDevices = e.GetVideoCaptureDevices.2 ∧
        (m.GetVideoCaptureDevices e).ret =
          e.GetVideoCaptureDevices.2.map (fun d => MediaDevice.mk d.id d.name) ∧
        (m.GetVideoCaptureDevices e).calls = [EngineCall.DevManagerGetVideoCaptureDevices]) ∧
      (m._videoCaptureDeviceChanged = false →
        (m.GetVideoCaptureDevices e).ret =
          m.g_videoDevices.map (fun d => MediaDevice.mk d.id d.name))) ∧
    ((m._audioCaptureDeviceChanged = true →
        (∀ hw : VoEHardware, e.GetVoEHardware = some hw → hw.GetNumOfRecordingDevices.1 = 0 →
          (m.GetAudioCaptureDevices e).media.g_audioCapturerDevices =
            (List.range hw.GetNumOfRecordingDevices.2.toNat).map (fun i =>
              Device.mk (hw.GetRecordingDeviceName i).1 (hw.GetRecordingDeviceName i).2) ∧
          (m.GetAudioCaptureDevices e).ret =
            (List.range hw.GetNumOfRecordingDevices.2.toNat).map (fun i =>
              MediaDevice.mk (hw.GetRecordingDeviceName i).2 (hw.GetRecordingDeviceName i).1) ∧
          (m.GetAudioCaptureDevices e).calls =
            EngineCall.GetVoEHardware :: EngineCall.GetNumOfRecordingDevices ::
              (List.range hw.GetNumOfRecordingDevices.2.toNat).map
                EngineCall.GetRecordingDeviceName) ∧
        (e.GetVoEHardware = none →
          (m.GetAudioCaptureDevices e).media.g_audioCapturerDevices = [] ∧
          (m.GetAudioCaptureDevices e).ret = [] ∧
          (m.GetAudioCaptureDevices e).calls = [EngineCall.GetVoEHardware]) ∧
        (∀ hw : VoEHardware, e.GetVoEHardware = some hw → hw.GetNumOfRecordingDevices.1 ≠ 0 →
          (m.GetAudioCaptureDevices e).media.g_audioCapturerDevices = [] ∧
          (m.GetAudioCaptureDevices e).ret = [] ∧
          (m.GetAudioCaptureDevices e).calls =
            [EngineCall.GetVoEHardware, EngineCall.GetNumOfRecordingDevices])) ∧
      (m._audioCaptureDeviceChanged = false →
        (m.GetAudioCaptureDevices e).ret =
          m.g_audioCapturerDevices.map (fun d => MediaDevice.mk d.id d.name))) ∧
    ((m._audioPlayoutDeviceChanged = true →
        (∀ hw : VoEHardware, e.GetVoEHardware = some hw → hw.GetNumOfPlayoutDevices.1 = 0 →
          (m.GetAudioPlayoutDevices e).media.g_audioPlayoutDevices =
            (List.range hw.GetNumOfPlayoutDevices.2.toNat).map (fun i =>
              Device.mk (hw.GetPlayoutDeviceName i).1 (hw.GetPlayoutDeviceName i).2) ∧
          (m.GetAudioPlayoutDevices e).ret =
            (List.range hw.GetNumOfPlayoutDevices.2.toNat).map (fun i =>
              MediaDevice.mk (hw.GetPlayoutDeviceName i).2 (hw.GetPlayoutDeviceName i).1) ∧
          (m.GetAudioPlayoutDevices e).calls =
            EngineCall.GetVoEHardware :: EngineCall.GetNumOfPlayoutDevices ::
              (List.range hw.GetNumOfPlayoutDevices.2.toNat).map
                EngineCall.GetPlayoutDeviceName) ∧
        (e.GetVoEHardware = none →
          (m.GetAudioPlayoutDevices e).media.g_audioPlayoutDevices = [] ∧
          (m.GetAudioPlayoutDevices e).ret = [] ∧
          (m.GetAudioPlayoutDevices e).calls = [EngineCall.GetVoEHardware]) ∧
        (∀ hw : VoEHardware, e.GetVoEHardware = some hw → hw.GetNumOfPlayoutDevices.1 ≠ 0 →
          (m.GetAudioPlayoutDevices e).media.g_audioPlayoutDevices = [] ∧
          (m.GetAudioPlayoutDevices e).ret = [] ∧
          (m.GetAudioPlayoutDevices e).calls =
            [EngineCall.GetVoEHardware, EngineCall.GetNumOfPlayoutDevices])) ∧
      (m._audioPlayoutDeviceChanged = false →
        (m.GetAudioPlayoutDevices e).ret =
          m.g_audioPlayoutDevices.map (fun d => MediaDevice.mk d.id d.name))) := by
  refine ⟨⟨fun hc => ?_, fun hc => ?_⟩, ⟨fun hc => ⟨fun hw hhw hn => ?_, fun hhw => ?_,
    fun hw hhw hn => ?_⟩, fun hc => ?_⟩, ⟨fun hc => ⟨fun hw hhw hn => ?_, fun hhw => ?_,
    fun hw hhw hn => ?_⟩, fun hc => ?_⟩⟩
  · simp [Media.GetVideoCaptureDevices, hc, toMediaDevices, ToCx]
  · simp [Media.GetVideoCaptureDevices, hc, toMediaDevices, ToCx]
  · simp [Media.GetAudioCaptureDevices, hc, hhw, hn, enumerateAudioDevices, toMediaDevices, ToCx]
  · simp [Media.GetAudioCaptureDevices, hc, hhw, enumerateAudioDevices, toMediaDevices]
  · simp [Media.GetAudioCaptureDevices, hc, hhw, hn, enumerateAudioDevices, toMediaDevices]
  · simp [Media.GetAudioCaptureDevices, hc, toMediaDevices, ToCx]
  · simp [Media.GetAudioPlayoutDevices, hc, hhw, hn, enumerateAudioDevices, toMediaDevices, ToCx]
  · simp [Media.GetAudioPlayoutDevices, hc, hhw, enumerateAudioDevices, toMediaDevices]
  · simp [Media.GetAudioPlayoutDevices, hc, hhw, hn, enumerateAudioDevices, toMediaDevices]
  · simp [Media.GetAudioPlayoutDevices, hc, toMediaDevices, ToCx]

/-- C4: each of the three `Get...Devices` methods re-enumerates the devices from
the engine exactly when the changed flag of its device type is set on entry:
with the flag set it asks the engine, puts the devices the engine answers into
the cached vector of the type and returns them; with the flag clear it makes no
call, leaves the object as it is and returns the cached vector it found. The
flag is clear on return whatever the engine answered; so an object that has just
been constructed enumerates on its first call, and of two calls in a row the
second makes no call to the engine and returns the list the first returned. -/
theorem C4_changed_flag_gates_enumeration (m : Media) (e e2 : Engine)
    (v a p : List Device) :
    (((EngineCall.DevManagerGetVideoCaptureDevices ∈ (m.GetVideoCaptureDevices e).calls ↔
        m._videoCaptureDeviceChanged = true) ∧
      ((m.GetVideoCaptureDevices e).calls ≠ [] ↔ m._videoCaptureDeviceChanged = true) ∧
      (m._videoCaptureDeviceChanged = false → (m.GetVideoCaptureDevices e).media = m) ∧
      (m.GetVideoCaptureDevices e).media._videoCaptureDeviceChanged = false ∧
      EngineCall.DevManagerGetVideoCaptureDevices ∈
        ((Media.CreateMedia e v a p).GetVideoCaptureDevices e2).calls ∧
      ((m.GetVideoCaptureDevices e).media.GetVideoCaptureDevices e2).calls = [] ∧
      ((m.GetVideoCaptureDevices e).media.GetVideoCaptureDevices e2).ret =
        (m.GetVideoCaptureDevices e).ret) ∧
    ((EngineCall.GetVoEHardware ∈ (m.GetAudioCaptureDevices e).calls ↔
        m._audioCaptureDeviceChanged = true) ∧
      ((m.GetAudioCaptureDevices e).calls ≠ [] ↔ m._audioCaptureDeviceChanged = true) ∧
      (m._audioCaptureDeviceChanged = false → (m.GetAudioCaptureDevices e).media = m) ∧
      (m.GetAudioCaptureDevices e).media._audioCaptureDeviceChanged = false ∧
      EngineCall.GetVoEHardware ∈
        ((Media.CreateMedia e v a p).GetAudioCaptureDevices e2).calls ∧
      ((m.GetAudioCaptureDevices e).media.GetAudioCaptureDevices e2).calls = [] ∧
      ((m.GetAudioCaptureDevices e).media.GetAudioCaptureDevices e2).ret =
        (m.GetAudioCaptureDevices e).ret) ∧
    ((EngineCall.GetVoEHardware ∈ (m.GetAudioPlayoutDevices e).calls ↔
        m._audioPlayoutDeviceChanged = true) ∧
      ((m.GetAudioPlayoutDevices e).calls ≠ [] ↔ m._audioPlayoutDeviceChanged = true) ∧
      (m._audioPlayoutDeviceChanged = false → (m.GetAudioPlayoutDevices e).media = m) ∧
      (m.GetAudioPlayoutDevices e).media._audioPlayoutDeviceChanged = false ∧
      EngineCall.GetVoEHardware ∈
        ((Media.CreateMedia e v a p).GetAudioPlayoutDevices e2).calls ∧
      ((m.GetAudioPlayoutDevices e).media.GetAudioPlayoutDevices e2).calls = [] ∧
      ((m.GetAudioPlayoutDevices e).media.GetAudioPlayoutDevices e2).ret =
        (m.GetAudioPlayoutDevices e).ret)) ∧
    ((m._videoCaptureDeviceChanged = true →
        (m.GetVideoCaptureDevices e).media.g_videoDevices = e.GetVideoCaptureDevices.2 ∧
        (m.GetVideoCaptureDevices e).ret =
          e.GetVideoCaptureDevices.2.map (fun d => MediaDevice.mk d.id d.name) ∧
        (m.GetVideoCaptureDevices e).calls = [EngineCall.DevManagerGetVideoCaptureDevices]) ∧
      (m._videoCaptureDeviceChanged = false →
        (m.GetVideoCaptureDevices e).ret =
          m.g_videoDevices.map (fun d => MediaDevice.mk d.id d.name))) ∧
    ((m._audioCaptureDeviceChanged = true →
        (∀ hw : VoEHardware, e.GetVoEHardware = some hw → hw.GetNumOfRecordingDevices.1 = 0 →
          (m.GetAudioCaptureDevices e).media.g_audioCapturerDevices =
            (List.range hw.GetNumOfRecordingDevices.2.toNat).map (fun i =>
              Device.mk (hw.GetRecordingDeviceName i).1 (hw.GetRecordingDeviceName i).2) ∧
          (m.GetAudioCaptureDevices e).ret =
            (List.range hw.GetNumOfRecordingDevices.2.toNat).map (fun i =>
              MediaDevice.mk (hw.GetRecordingDeviceName i).2 (hw.GetRecordingDeviceName i).1) ∧
          (m.GetAudioCaptureDevices e).calls =
            EngineCall.GetVoEHardware :: EngineCall.GetNumOfRecordingDevices ::
              (List.range hw.GetNumOfRecordingDevices.2.toNat).map
                EngineCall.GetRecordingDeviceName) ∧
        (e.GetVoEHardware = none →
          (m.GetAudioCaptureDevices e).media.g_audioCapturerDevices = [] ∧
          (m.GetAudioCaptureDevices e).ret = [] ∧
          (m.GetAudioCaptureDevices e).calls = [EngineCall.GetVoEHardware]) ∧
        (∀ hw : VoEHardware, e.GetVoEHardware = some hw → hw.GetNumOfRecordingDevices.1 ≠ 0 →
          (m.GetAudioCaptureDevices e).media.g_audioCapturerDevices = [] ∧
          (m.GetAudioCaptureDevices e).ret = [] ∧
          (m.GetAudioCaptureDevices e).calls =
            [EngineCall.GetVoEHardware, EngineCall.GetNumOfRecordingDevices])) ∧
      (m._audioCaptureDeviceChanged = false →
        (m.GetAudioCaptureDevices e).ret =
          m.g_audioCapturerDevices.map (fun d => MediaDevice.mk d.id d.name))) ∧
    ((m._audioPlayoutDeviceChanged = true →
        (∀ hw : VoEHardware, e.GetVoEHardware = some hw → hw.GetNumOfPlayoutDevices.1 = 0 →
          (m.GetAudioPlayoutDevices e).media.g_audioPlayoutDevices =
            (List.range hw.GetNumOfPlayoutDevices.2.toNat).map (fun i =>
              Device.mk (hw.GetPlayoutDeviceName i).1 (hw.GetPlayoutDeviceName i).2) ∧
          (m.GetAudioPlayoutDevices e).ret =
            (List.range hw.GetNumOfPlayoutDevices.2.toNat).map (fun i =>
              MediaDevice.mk (hw.GetPlayoutDeviceName i).2 (hw.GetPlayoutDeviceName i).1) ∧
          (m.GetAudioPlayoutDevices e).calls =
            EngineCall.GetVoEHardware :: EngineCall.GetNumOfPlayoutDevices ::
              (List.range hw.GetNumOfPlayoutDevices.2.toNat).map
                EngineCall.GetPlayoutDeviceName) ∧
        (e.GetVoEHardware = none →
          (m.GetAudioPlayoutDevices e).media.g_audioPlayoutDevices = [] ∧
          (m.GetAudioPlayoutDevices e).ret = [] ∧
          (m.GetAudioPlayoutDevices e).calls = [EngineCall.GetVoEHardware]) ∧
        (∀ hw : VoEHardware, e.GetVoEHardware = some hw → hw.GetNumOfPlayoutDevices.1 ≠ 0 →
          (m.GetAudioPlayoutDevices e).media.g_audioPlayoutDevices = [] ∧
          (m.GetAudioPlayoutDevices e).ret = [] ∧
          (m.GetAudioPlayoutDevices e).calls =
            [EngineCall.GetVoEHardware, EngineCall.GetNumOfPlayoutDevices])) ∧
      (m._audioPlayoutDeviceChanged = false →
        (m.GetAudioPlayoutDevices e).ret =
          m.g_audioPlayoutDevices.map (fun d => MediaDevice.mk d.id d.name))) := by
  obtain ⟨r1, r2, r3⟩ := refresh_takes_engine_answer m e
  exact ⟨changed_flag_gates_calls m e e2 v a p, r1, r2, r3⟩

/-- C4 at a concrete object: with the video flag set, `GetVideoCaptureDevices`
caches and returns the two devices the engine answers; called again on the
object it left, with an engine that would answer nothing, it makes no call and
returns the same two devices. -/
theorem C4_changed_flag_gates_enumeration_witness :
    (({ sampleMedia with g_videoDevices := [], _videoCaptureDeviceChanged := true }
        ).GetVideoCaptureDevices sampleEngine).ret =
      [⟨"cam0", "Front"⟩, ⟨"cam1", "Back"⟩] ∧
    (sampleMedia.GetVideoCaptureDevices { sampleEngine with GetVideoCaptureDevices := (false, []) }
      ).ret = [⟨"cam0", "Front"⟩, ⟨"cam1", "Back"⟩] :=
  ⟨((C4_changed_flag_gates_enumeration
      { sampleMedia with g_videoDevices := [], _videoCaptureDeviceChanged := true }
      sampleEngine sampleEngine [] [] []).2.1.1 rfl).2.1,
   (C4_changed_flag_gates_enumeration sampleMedia
      { sampleEngine with GetVideoCaptureDevices := (false, []) } sampleEngine [] [] []).2.1.2 rfl⟩

/-! ## Media: selecting an audio device -/

/-- The audio search loop answers true exactly when the list holds a device with
the id. -/
theorem selectAudioLoop_true_iff (id : String) (selected : Device) (l : List Device) :
    (selectAudioLoop id selected l).2 = true ↔ ∃ d ∈ l, d.id = id := by
  induction l with
  | nil => simp [selectAudioLoop]
  | cons x xs ih =>
    by_cases hx : x.id = id
    · simp [selectAudioLoop, hx]
    · simp [selectAudioLoop, hx, ih]

/-- When the audio search loop answers true, the device it leaves selected is the
first one of the list with the id. -/
theorem selectAudioLoop_first (id : String) (selected : Device) (l : List Device)
    (h : (selectAudioLoop id selected l).2 = true) :
    ∃ before after : List Device,
      l = before ++ (selectAudioLoop id selected l).1 :: after ∧
      (selectAudioLoop id selected l).1.id = id ∧ ∀ d ∈ before, d.id ≠ id := by
  induction l with
  | nil => simp [selectAudioLoop] at h
  | cons x xs ih =>
    by_cases hx : x.id = id
    · exact ⟨[], xs, by simp [selectAudioLoop, hx], by simp [selectAudioLoop, hx], by simp⟩
    · have h2 : (selectAudioLoop id selected xs).2 = true := by
        simpa [selectAudioLoop, hx] using h
      obtain ⟨before, after, h3, h4, h5⟩ := ih h2
      refine ⟨x :: before, after, ?_, ?_, ?_⟩
      · simp only [selectAudioLoop, hx, if_false, List.cons_append]
        exact congrArg (List.cons x) h3
      · simpa [selectAudioLoop, hx] using h4
      · intro d hd
        rcases List.mem_cons.mp hd with hd | hd
        · exact hd ▸ hx
        · exact h5 d hd

/-- When the audio search loop answers false, the selected device is the one the
loop started with. -/
theorem selectAudioLoop_false (id : String) (selected : Device) (l : List Device)
    (h : (selectAudioLoop id selected l).2 = false) :
    (selectAudioLoop id selected l).1 = selected := by
  induction l with
  | nil => rfl
  | cons x xs ih =>
    by_cases hx : x.id = id
    · simp [selectAudioLoop, hx] at h
    · have h2 : (selectAudioLoop id selected xs).2 = false := by
        simpa [selectAudioLoop, hx] using h
      simpa [selectAudioLoop, hx] using ih h2

/-- C5: `SelectAudioDevice` returns true exactly when some cached capture device
has the id of the argument, and then the selected capture device is the first
cached device, in list order, with that id; the same holds for
`SelectAudioPlayoutDevice` over the cached playout list. Neither method changes
a cached list or a changed flag. -/
theorem C5_select_audio_device (m : Media) (e : Engine) (device : MediaDevice) :
    (((m.SelectAudioDevice e device).2 = true ↔
        ∃ d ∈ m.g_audioCapturerDevices, d.id = device.Id) ∧
      ((m.SelectAudioDevice e device).2 = true →
        ∃ before after : List Device,
          m.g_audioCapturerDevices =
            before ++ (m.SelectAudioDevice e device).1._selectedAudioCapturerDevice :: after ∧
          (m.SelectAudioDevice e device).1._selectedAudioCapturerDevice.id = device.Id ∧
          ∀ d ∈ before, d.id ≠ device.Id) ∧
      (m.SelectAudioDevice e device).1.g_videoDevices = m.g_videoDevices ∧
      (m.SelectAudioDevice e device).1.g_audioCapturerDevices = m.g_audioCapturerDevices ∧
      (m.SelectAudioDevice e device).1.g_audioPlayoutDevices = m.g_audioPlayoutDevices ∧
      (m.SelectAudioDevice e device).1._videoCaptureDeviceChanged = m._videoCaptureDeviceChanged ∧
      (m.SelectAudioDevice e device).1._audioCaptureDeviceChanged = m._audioCaptureDeviceChanged ∧
      (m.SelectAudioDevice e device).1._audioPlayoutDeviceChanged =
        m._audioPlayoutDeviceChanged) ∧
    (((m.SelectAudioPlayoutDevice e device).2 = true ↔
        ∃ d ∈ m.g_audioPlayoutDevices, d.id = device.Id) ∧
      ((m.SelectAudioPlayoutDevice e device).2 = true →
        ∃ before after : List Device,
          m.g_audioPlayoutDevices =
            before ++ (m.SelectAudioPlayoutDevice e device).1._selectedAudioPlayoutDevice :: after ∧
          (m.SelectAudioPlayoutDevice e device).1._selectedAudioPlayoutDevice.id = device.Id ∧
          ∀ d ∈ before, d.id ≠ device.Id) ∧
      (m.SelectAudioPlayoutDevice e device).1.g_videoDevices = m.g_videoDevices ∧
      (m.SelectAudioPlayoutDevice e device).1.g_audioCapturerDevices =
        m.g_audioCapturerDevices ∧
      (m.SelectAudioPlayoutDevice e device).1.g_audioPlayoutDevices = m.g_audioPlayoutDevices ∧
      (m.SelectAudioPlayoutDevice e device).1._videoCaptureDeviceChanged =
        m._videoCaptureDeviceChanged ∧
      (m.SelectAudioPlayoutDevice e device).1._audioCaptureDeviceChanged =
        m._audioCaptureDeviceChanged ∧
      (m.SelectAudioPlayoutDevice e device).1._audioPlayoutDeviceChanged =
        m._audioPlayoutDeviceChanged) :=
  ⟨⟨selectAudioLoop_true_iff _ _ _, selectAudioLoop_first _ _ _, rfl, rfl, rfl, rfl, rfl, rfl⟩,
   ⟨selectAudioLoop_true_iff _ _ _, selectAudioLoop_first _ _ _, rfl, rfl, rfl, rfl, rfl, rfl⟩⟩

/-- C5 at a concrete object: selecting the id "guid-usb" returns true and
selects the second cached capture device. -/
theorem C5_select_audio_device_witness :
    (sampleMedia.SelectAudioDevice sampleEngine ⟨"guid-usb", "x"⟩).2 = true ∧
    (sampleMedia.SelectAudioDevice sampleEngine ⟨"guid-usb", "x"⟩).1._selectedAudioCapturerDevice.id
      = "guid-usb" :=
  ⟨by decide,
   ((C5_select_audio_device sampleMedia sampleEngine ⟨"guid-usb", "x"⟩).1.2.1
      (by decide)).choose_spec.choose_spec.2.1⟩

/-! ## Media::GetUserMedia: the audio block -/

/-- A reader of the record that ignores the name queries finds nothing in the
calls of the name loop. -/
theorem nameMatchLoop_filterMap {α : Type} (f : EngineCall → Option α)
    (getName : Nat → String × String) (call : Nat → EngineCall) (selectedName : String)
    (hf : ∀ i, f (call i) = none) (l : List Nat) :
    (nameMatchLoop getName call selectedName l).2.filterMap f = [] := by
  induction l with
  | nil => rfl
  | cons i rest ih =>
    by_cases h : compareIsZero selectedName 0 (strlen (getName i).1) (getName i).1 = true
    · simp [nameMatchLoop, h, hf]
    · simp [nameMatchLoop, h, hf, ih]

/-- A reader of the record that ignores the five hardware queries finds nothing
in the calls of the device check. -/
theorem checkAudioDevices_filterMap {α : Type} (f : EngineCall → Option α) (m : Media)
    (e : Engine) (h0 : f EngineCall.GetVoEHardware = none)
    (h1 : f EngineCall.GetNumOfRecordingDevices = none)
    (h2 : ∀ i, f (EngineCall.GetRecordingDeviceName i) = none)
    (h3 : f EngineCall.GetNumOfPlayoutDevices = none)
    (h4 : ∀ i, f (EngineCall.GetPlayoutDeviceName i) = none) :
    (m.checkAudioDevices e).2.2.filterMap f = [] := by
  unfold Media.checkAudioDevices
  cases e.GetVoEHardware with
  | none => simp [h0]
  | some hw =>
    have hr : (m.checkRecordingDevice hw).2.filterMap f = [] := by
      unfold Media.checkRecordingDevice
      by_cases h : hw.GetNumOfRecordingDevices.1 = 0
      · simp [h, h1, nameMatchLoop_filterMap f _ _ _ h2]
      · simp [h, h1]
    have hp : (m.checkPlayoutDevice hw).2.filterMap f = [] := by
      unfold Media.checkPlayoutDevice
      by_cases h : hw.GetNumOfPlayoutDevices.1 = 0
      · simp [h, h3, nameMatchLoop_filterMap f _ _ _ h4]
      · simp [h, h3]
    simp [h0, hr, hp]

/-- The device manager is asked for a capturer, and nothing else, by the loop
over the cached video devices. -/
theorem firstCapturerLoop_filterMap {α : Type} (f : EngineCall → Option α) (e : Engine)
    (hf : ∀ d, f (EngineCall.CreateVideoCapturer d) = none) (l : List Device) :
    (firstCapturerLoop e l).2.filterMap f = [] := by
  induction l with
  | nil => rfl
  | cons d rest ih =>
    cases h : e.CreateVideoCapturer d with
    | none => simp [firstCapturerLoop, h, hf, ih]
    | some c => simp [firstCapturerLoop, h, hf]

/-- The calls of the video block of `GetUserMedia` do not depend on the stream
the block runs on. -/
theorem userMediaVideo_calls (m : Media) (e : Engine) (rand : Nat)
    (stream other : MediaStreamInterface) :
    (m.userMediaVideo e rand stream).2 = (m.userMediaVideo e rand other).2 := by
  unfold Media.userMediaVideo
  by_cases hid : m._selectedVideoDevice.id = ""
  · simp only [hid, if_true]
    cases (firstCapturerLoop e m.g_videoDevices).1 <;> rfl
  · simp only [hid, if_false]
    cases e.CreateVideoCapturer m._selectedVideoDevice <;> rfl

/-- The video block of `GetUserMedia` makes no `SetSoundDevices` call. -/
theorem userMediaVideo_soundDevices (m : Media) (e : Engine) (rand : Nat)
    (stream : MediaStreamInterface) :
    soundDevicesPassed (m.userMediaVideo e rand stream).2 = [] := by
  have hl := firstCapturerLoop_filterMap EngineCall.soundDevices e (fun _ => rfl) m.g_videoDevices
  unfold soundDevicesPassed Media.userMediaVideo
  by_cases hid : m._selectedVideoDevice.id = ""
  · simp only [hid, if_true]
    cases hc : (firstCapturerLoop e m.g_videoDevices).1 with
    | none => simpa using hl
    | some c => simp [hl, EngineCall.soundDevices]
  · simp only [hid, if_false]
    cases hc : e.CreateVideoCapturer m._selectedVideoDevice with
    | none => simp [EngineCall.soundDevices]
    | some c => simp [EngineCall.soundDevices]

/-- The video block of `GetUserMedia` adds no audio track. -/
theorem userMediaVideo_audioTracks (m : Media) (e : Engine) (rand : Nat)
    (stream : MediaStreamInterface) :
    tracksAdded TrackClass.audio (m.userMediaVideo e rand stream).2 = [] := by
  have hl := firstCapturerLoop_filterMap (EngineCall.addedTrack TrackClass.audio) e
    (fun _ => rfl) m.g_videoDevices
  unfold tracksAdded Media.userMediaVideo
  by_cases hid : m._selectedVideoDevice.id = ""
  · simp only [hid, if_true]
    cases hc : (firstCapturerLoop e m.g_videoDevices).1 with
    | none => simpa using hl
    | some c => simp [hl, EngineCall.addedTrack]
  · simp only [hid, if_false]
    cases hc : e.CreateVideoCapturer m._selectedVideoDevice with
    | none => simp [EngineCall.addedTrack]
    | some c => simp [EngineCall.addedTrack]

/-- With audio enabled, `GetUserMedia` calls `SetSoundDevices` exactly once: a
null pointer goes where the device check left the `useDefault...` variable true,
the selected device where it left it false. -/
theorem GetUserMedia_soundDevices (m : Media) (e : Engine) (videoEnabled : Bool) :
    soundDevicesPassed (m.GetUserMedia e ⟨true, videoEnabled⟩).calls =
      [(if (m.checkAudioDevices e).1 then none else some m._selectedAudioCapturerDevice,
        if (m.checkAudioDevices e).2.1 then none else some m._selectedAudioPlayoutDevice)] := by
  have hc := checkAudioDevices_filterMap EngineCall.soundDevices m e rfl rfl (fun _ => rfl) rfl
    (fun _ => rfl)
  have hv := fun st => userMediaVideo_soundDevices m e (e.CreateRandomId64 2) st
  unfold soundDevicesPassed at hv ⊢
  unfold Media.GetUserMedia Media.userMediaAudio
  cases videoEnabled <;> simp [hc, hv, EngineCall.soundDevices]

/-- With audio enabled, `GetUserMedia` adds exactly one audio track to the
stream: the one the engine created for the audio label. -/
theorem GetUserMedia_audioTracks (m : Media) (e : Engine) (videoEnabled : Bool) :
    tracksAdded TrackClass.audio (m.GetUserMedia e ⟨true, videoEnabled⟩).calls =
      [e.CreateAudioTrack (_snprintf 32 kAudioLabel (e.CreateRandomId64 1))] := by
  have hc := checkAudioDevices_filterMap (EngineCall.addedTrack TrackClass.audio) m e rfl rfl
    (fun _ => rfl) rfl (fun _ => rfl)
  have hv := fun st => userMediaVideo_audioTracks m e (e.CreateRandomId64 2) st
  unfold tracksAdded at hv ⊢
  unfold Media.GetUserMedia Media.userMediaAudio
  cases videoEnabled <;> simp [hc, hv, EngineCall.addedTrack]

/-- The engine's `AddTrack` with a video track leaves the audio tracks and the
label of the stream as they are. -/
theorem AddTrack_video_audioTracks (stream : MediaStreamInterface)
    (track : MediaStreamTrackInterface) :
    (stream.AddTrack TrackClass.video track).GetAudioTracks = stream.GetAudioTracks ∧
    (stream.AddTrack TrackClass.video track).label = stream.label := by
  unfold MediaStreamInterface.AddTrack
  by_cases h : (stream.GetVideoTracks.any fun t => decide (t.id = track.id)) = true
  · simp [h]
  · simp [h]

/-- After the engine's `AddTrack` with an audio track, the stream holds an audio
track with the id of that track; a stream without audio tracks holds exactly
that track; the label is as it was. -/
theorem AddTrack_audio_audioTracks (stream : MediaStreamInterface)
    (track : MediaStreamTrackInterface) :
    (∃ t ∈ (stream.AddTrack TrackClass.audio track).GetAudioTracks, t.id = track.id) ∧
    (stream.GetAudioTracks = [] →
      (stream.AddTrack TrackClass.audio track).GetAudioTracks = [track]) ∧
    (stream.AddTrack TrackClass.audio track).label = stream.label := by
  unfold MediaStreamInterface.AddTrack
  by_cases h : (stream.GetAudioTracks.any fun t => decide (t.id = track.id)) = true
  · refine ⟨?_, ?_, ?_⟩
    · obtain ⟨t, ht, hid⟩ := List.any_eq_true.mp h
      exact ⟨t, by simpa [h] using ht, by simpa using hid⟩
    · intro hnil
      rw [hnil] at h
      simp at h
    · simp [h]
  · refine ⟨⟨track, by simp [h], rfl⟩, ?_, ?_⟩
    · intro hnil
      simp [h, hnil]
    · simp [h]

/-- The video block of `GetUserMedia` leaves the audio tracks and the label of
the stream it runs on as they are. -/
theorem userMediaVideo_audioTracks_kept (m : Media) (e : Engine) (rand : Nat)
    (stream : MediaStreamInterface) :
    (m.userMediaVideo e rand stream).1.GetAudioTracks = stream.GetAudioTracks ∧
    (m.userMediaVideo e rand stream).1.label = stream.label := by
  unfold Media.userMediaVideo
  by_cases hid : m._selectedVideoDevice.id = ""
  · simp only [hid, if_true]
    cases (firstCapturerLoop e m.g_videoDevices).1 with
    | none => exact ⟨rfl, rfl⟩
    | some c => exact AddTrack_video_audioTracks _ _
  · simp only [hid, if_false]
    cases e.CreateVideoCapturer m._selectedVideoDevice with
    | none => exact ⟨rfl, rfl⟩
    | some c => exact AddTrack_video_audioTracks _ _

/-- With audio enabled, the stream `GetUserMedia` returns is not null, and its
audio tracks and label are those of the stream the engine created after the
engine's `AddTrack` with the new audio track. -/
theorem GetUserMedia_stream (m : Media) (e : Engine) (videoEnabled : Bool) :
    ∃ stream : MediaStreamInterface,
      (m.GetUserMedia e ⟨true, videoEnabled⟩).stream._impl = some stream ∧
      stream.GetAudioTracks =
        ((e.CreateLocalMediaStream (_snprintf 32 kStreamLabel (e.CreateRandomId64 0))).AddTrack
          TrackClass.audio
          (e.CreateAudioTrack (_snprintf 32 kAudioLabel (e.CreateRandomId64 1)))).GetAudioTracks ∧
      stream.label =
        (e.CreateLocalMediaStream (_snprintf 32 kStreamLabel (e.CreateRandomId64 0))).label := by
  have hl := (AddTrack_audio_audioTracks
    (e.CreateLocalMediaStream (_snprintf 32 kStreamLabel (e.CreateRandomId64 0)))
    (e.CreateAudioTrack (_snprintf 32 kAudioLabel (e.CreateRandomId64 1)))).2.2
  cases videoEnabled
  · exact ⟨_, rfl, rfl, hl⟩
  · refine ⟨_, rfl, ?_, ?_⟩
    · exact (userMediaVideo_audioTracks_kept m e _ _).1
    · exact ((userMediaVideo_audioTracks_kept m e _ _).2).trans hl

/-- C6: when `GetUserMedia` runs with audio enabled and the hardware interface
is not available, the one `SetSoundDevices` call gets the null pointer (the
default device) for both directions; when the count query of a direction fails,
it gets the null pointer for that direction. In every case the method returns a
stream that is not null, the one the engine created (it has its label), exactly
one `AddTrack` call with an audio track is made, and the returned stream holds
an audio track with the id of that track: on a stream that the engine created
without audio tracks, the audio tracks of the returned stream are that one
track. -/
theorem C6_default_device_fallback (m : Media) (e : Engine) (videoEnabled : Bool) :
    (e.GetVoEHardware = none →
      soundDevicesPassed (m.GetUserMedia e ⟨true, videoEnabled⟩).calls = [(none, none)]) ∧
    (∀ hw : VoEHardware, e.GetVoEHardware = some hw → hw.GetNumOfRecordingDevices.1 ≠ 0 →
      ∃ playout : Option Device,
        soundDevicesPassed (m.GetUserMedia e ⟨true, videoEnabled⟩).calls = [(none, playout)]) ∧
    (∀ hw : VoEHardware, e.GetVoEHardware = some hw → hw.GetNumOfPlayoutDevices.1 ≠ 0 →
      ∃ capture : Option Device,
        soundDevicesPassed (m.GetUserMedia e ⟨true, videoEnabled⟩).calls = [(capture, none)]) ∧
    (∃ stream : MediaStreamInterface,
      (m.GetUserMedia e ⟨true, videoEnabled⟩).stream._impl = some stream ∧
      stream.label =
        (e.CreateLocalMediaStream (_snprintf 32 kStreamLabel (e.CreateRandomId64 0))).label ∧
      (∃ t ∈ stream.GetAudioTracks,
        t.id = (e.CreateAudioTrack (_snprintf 32 kAudioLabel (e.CreateRandomId64 1))).id) ∧
      ((e.CreateLocalMediaStream
          (_snprintf 32 kStreamLabel (e.CreateRandomId64 0))).GetAudioTracks = [] →
        stream.GetAudioTracks =
          [e.CreateAudioTrack (_snprintf 32 kAudioLabel (e.CreateRandomId64 1))])) ∧
    ((e.CreateLocalMediaStream
        (_snprintf 32 kStreamLabel (e.CreateRandomId64 0))).GetAudioTracks = [] →
      (m.GetUserMedia e ⟨true, videoEnabled⟩).stream.GetAudioTracks =
        some [MediaAudioTrack.mk
          (e.CreateAudioTrack (_snprintf 32 kAudioLabel (e.CreateRandomId64 1)))]) ∧
    tracksAdded TrackClass.audio (m.GetUserMedia e ⟨true, videoEnabled⟩).calls =
      [e.CreateAudioTrack (_snprintf 32 kAudioLabel (e.CreateRandomId64 1))] := by
  obtain ⟨stream, hs, ha, hlabel⟩ := GetUserMedia_stream m e videoEnabled
  obtain ⟨hmem, hfresh, _⟩ := AddTrack_audio_audioTracks
    (e.CreateLocalMediaStream (_snprintf 32 kStreamLabel (e.CreateRandomId64 0)))
    (e.CreateAudioTrack (_snprintf 32 kAudioLabel (e.CreateRandomId64 1)))
  refine ⟨?_, ?_, ?_, ⟨stream, hs, hlabel, ?_, ?_⟩, ?_, GetUserMedia_audioTracks m e videoEnabled⟩
  · intro h
    rw [GetUserMedia_soundDevices]
    simp [Media.checkAudioDevices, h]
  · intro hw h hn
    rw [GetUserMedia_soundDevices]
    refine ⟨if (m.checkAudioDevices e).2.1 then none else some m._selectedAudioPlayoutDevice, ?_⟩
    simp [Media.checkAudioDevices, h, Media.checkRecordingDevice, hn]
  · intro hw h hn
    rw [GetUserMedia_soundDevices]
    refine ⟨if (m.checkAudioDevices e).1 then none else some m._selectedAudioCapturerDevice, ?_⟩
    simp [Media.checkAudioDevices, h, Media.checkPlayoutDevice, hn]
  · rw [ha]
    exact hmem
  · intro hnil
    rw [ha]
    exact hfresh hnil
  · intro hnil
    simp only [MediaStream.GetAudioTracks, hs, ha, hfresh hnil, List.map_cons, List.map_nil]

/-- C6 at a concrete engine: with no hardware interface, both pointers passed to
`SetSoundDevices` are null although devices are selected, and the stream
returned holds the one audio track the engine created. -/
theorem C6_default_device_fallback_witness :
    soundDevicesPassed (sampleMedia.GetUserMedia sampleEngineNoHardware ⟨true, true⟩).calls =
      [(none, none)] ∧
    (sampleMedia.GetUserMedia sampleEngineNoHardware ⟨true, true⟩).stream.GetAudioTracks =
      some [MediaAudioTrack.mk (sampleEngineNoHardware.CreateAudioTrack
        (_snprintf 32 kAudioLabel (sampleEngineNoHardware.CreateRandomId64 1)))] :=
  ⟨(C6_default_device_fallback sampleMedia sampleEngineNoHardware true).1 rfl,
   (C6_default_device_fallback sampleMedia sampleEngineNoHardware true).2.2.2.2.1 rfl⟩

/-- The test of the name loop succeeds exactly when the reported name is an
initial segment of the selected name. -/
theorem compareIsZero_iff_initial_segment (selectedName audioDeviceName : String) :
    compareIsZero selectedName 0 (strlen audioDeviceName) audioDeviceName = true ↔
      audioDeviceName.data <+: selectedName.data := by
  unfold compareIsZero strlen
  rw [decide_eq_true_iff, List.drop_zero, List.prefix_iff_eq_take]
  exact eq_comm

/-- The name loop leaves `useDefault...` false exactly when some reported name,
at an index of the list, is an initial segment of the selected name. -/
theorem nameMatchLoop_false_iff (getName : Nat → String × String) (call : Nat → EngineCall)
    (selectedName : String) (l : List Nat) :
    (nameMatchLoop getName call selectedName l).1 = false ↔
      ∃ i ∈ l, (getName i).1.data <+: selectedName.data := by
  induction l with
  | nil => simp [nameMatchLoop]
  | cons i rest ih =>
    by_cases h : compareIsZero selectedName 0 (strlen (getName i).1) (getName i).1 = true
    · have h2 := (compareIsZero_iff_initial_segment selectedName (getName i).1).mp h
      simp [nameMatchLoop, h, h2]
    · have h2 : ¬ ((getName i).1.data <+: selectedName.data) :=
        fun hp => h ((compareIsZero_iff_initial_segment selectedName (getName i).1).mpr hp)
      simp [nameMatchLoop, h, h2, ih]

/-- C7, the code at a failing input: the selected capture device is
"Microphone (USB)", the hardware reports the single recording device
"Microphone", so no reported name equals the selected name; the selected device
is passed to `SetSoundDevices` all the same, because the test of the loop
succeeds whenever a reported name is an initial segment of the selected name. -/
theorem C7_selected_device_passed_without_equal_name :
    (∀ i : Nat, (sampleHardware.GetRecordingDeviceName i).1 ≠
        sampleMedia._selectedAudioCapturerDevice.name) ∧
    soundDevicesPassed (sampleMedia.GetUserMedia sampleEngine ⟨true, false⟩).calls =
      [(some ⟨"Microphone (USB)", "guid-usb"⟩, some ⟨"Speakers", "guid-spk"⟩)] := by
  refine ⟨fun _ => ?_, by decide⟩
  show ("Microphone" : String) ≠ "Microphone (USB)"
  decide

/-! ## Media: what the `Get...Devices` methods return -/

/-- The returned vector mirrors the cached vector, entry by entry. -/
theorem toMediaDevices_getElem (devices : List Device) (i : Nat) :
    (toMediaDevices devices)[i]? = (devices[i]?).map fun d => MediaDevice.mk d.id d.name := by
  simp [toMediaDevices, ToCx]

/-- The audio enumeration on an available interface whose count query succeeds:
one device per index below the count, with the reported name as name and the
reported GUID as id. -/
theorem enumerateAudioDevices_reported (hw : VoEHardware)
    (getNum : VoEHardware → Int × Int) (getName : VoEHardware → Nat → String × String)
    (numCall : EngineCall) (nameCall : Nat → EngineCall) (h : (getNum hw).1 = 0) :
    (enumerateAudioDevices (some hw) getNum getName numCall nameCall).1.length =
      (getNum hw).2.toNat ∧
    ∀ i : Nat, i < (getNum hw).2.toNat →
      (enumerateAudioDevices (some hw) getNum getName numCall nameCall).1[i]? =
        some ⟨(getName hw i).1, (getName hw i).2⟩ := by
  constructor
  · simp [enumerateAudioDevices, h]
  · intro i hi
    simp [enumerateAudioDevices, h, List.getElem?_range hi]

/-- The audio enumeration leaves the vector empty when the interface is null or
the count query fails. -/
theorem enumerateAudioDevices_empty (hardware : Option VoEHardware)
    (getNum : VoEHardware → Int × Int) (getName : VoEHardware → Nat → String × String)
    (numCall : EngineCall) (nameCall : Nat → EngineCall)
    (h : hardware = none ∨ ∃ hw, hardware = some hw ∧ (getNum hw).1 ≠ 0) :
    (enumerateAudioDevices hardware getNum getName numCall nameCall).1 = [] := by
  rcases h with h | ⟨hw, h, hn⟩
  · simp [enumerateAudioDevices, h]
  · simp [enumerateAudioDevices, h, hn]

/-- C8: the vector each `Get...Devices` method returns has the length and the
order of the cached vector of its type as it stands after any refresh, and its
i-th `MediaDevice` carries the id and the name of the i-th cached device. When
an audio vector is refreshed (its flag is set) from an available interface whose
count query succeeds, it holds one device per reported index, with the name and
the GUID (as id) the hardware reported for that index; when the interface is
null or the count query fails, the refreshed vector is empty. -/
theorem C8_returned_list_mirrors_cache (m : Media) (e : Engine) :
    ((m.GetVideoCaptureDevices e).ret.length =
        (m.GetVideoCaptureDevices e).media.g_videoDevices.length ∧
      (∀ i : Nat, (m.GetVideoCaptureDevices e).ret[i]? =
        ((m.GetVideoCaptureDevices e).media.g_videoDevices[i]?).map
          fun d => MediaDevice.mk d.id d.name)) ∧
    ((m.GetAudioCaptureDevices e).ret.length =
        (m.GetAudioCaptureDevices e).media.g_audioCapturerDevices.length ∧
      (∀ i : Nat, (m.GetAudioCaptureDevices e).ret[i]? =
        ((m.GetAudioCaptureDevices e).media.g_audioCapturerDevices[i]?).map
          fun d => MediaDevice.mk d.id d.name) ∧
      (m._audioCaptureDeviceChanged = true →
        (∀ hw : VoEHardware, e.GetVoEHardware = some hw → hw.GetNumOfRecordingDevices.1 = 0 →
          (m.GetAudioCaptureDevices e).media.g_audioCapturerDevices.length =
            hw.GetNumOfRecordingDevices.2.toNat ∧
          ∀ i : Nat, i < hw.GetNumOfRecordingDevices.2.toNat →
            (m.GetAudioCaptureDevices e).media.g_audioCapturerDevices[i]? =
              some ⟨(hw.GetRecordingDeviceName i).1, (hw.GetRecordingDeviceName i).2⟩) ∧
        ((e.GetVoEHardware = none ∨
            ∃ hw, e.GetVoEHardware = some hw ∧ hw.GetNumOfRecordingDevices.1 ≠ 0) →
          (m.GetAudioCaptureDevices e).media.g_audioCapturerDevices = []))) ∧
    ((m.GetAudioPlayoutDevices e).ret.length =
        (m.GetAudioPlayoutDevices e).media.g_audioPlayoutDevices.length ∧
      (∀ i : Nat, (m.GetAudioPlayoutDevices e).ret[i]? =
        ((m.GetAudioPlayoutDevices e).media.g_audioPlayoutDevices[i]?).map
          fun d => MediaDevice.mk d.id d.name) ∧
      (m._audioPlayoutDeviceChanged = true →
        (∀ hw : VoEHardware, e.GetVoEHardware = some hw → hw.GetNumOfPlayoutDevices.1 = 0 →
          (m.GetAudioPlayoutDevices e).media.g_audioPlayoutDevices.length =
            hw.GetNumOfPlayoutDevices.2.toNat ∧
          ∀ i : Nat, i < hw.GetNumOfPlayoutDevices.2.toNat →
            (m.GetAudioPlayoutDevices e).media.g_audioPlayoutDevices[i]? =
              some ⟨(hw.GetPlayoutDeviceName i).1, (hw.GetPlayoutDeviceName i).2⟩) ∧
        ((e.GetVoEHardware = none ∨
            ∃ hw, e.GetVoEHardware = some hw ∧ hw.GetNumOfPlayoutDevices.1 ≠ 0) →
          (m.GetAudioPlayoutDevices e).media.g_audioPlayoutDevices = []))) := by
  refine ⟨⟨?_, fun i => toMediaDevices_getElem _ i⟩,
    ⟨?_, fun i => toMediaDevices_getElem _ i, ?_⟩,
    ⟨?_, fun i => toMediaDevices_getElem _ i, ?_⟩⟩
  · simp [Media.GetVideoCaptureDevices, toMediaDevices]
  · simp [Media.GetAudioCaptureDevices, toMediaDevices]
  · intro hc
    refine ⟨fun hw hhw hn => ?_, fun h => ?_⟩
    · have := enumerateAudioDevices_reported hw VoEHardware.GetNumOfRecordingDevices
        VoEHardware.GetRecordingDeviceName EngineCall.GetNumOfRecordingDevices
        EngineCall.GetRecordingDeviceName hn
      simpa [Media.GetAudioCaptureDevices, hc, hhw] using this
    · have := enumerateAudioDevices_empty e.GetVoEHardware VoEHardware.GetNumOfRecordingDevices
        VoEHardware.GetRecordingDeviceName EngineCall.GetNumOfRecordingDevices
        EngineCall.GetRecordingDeviceName h
      simpa [Media.GetAudioCaptureDevices, hc] using this
  · simp [Media.GetAudioPlayoutDevices, toMediaDevices]
  · intro hc
    refine ⟨fun hw hhw hn => ?_, fun h => ?_⟩
    · have := enumerateAudioDevices_reported hw VoEHardware.GetNumOfPlayoutDevices
        VoEHardware.GetPlayoutDeviceName EngineCall.GetNumOfPlayoutDevices
        EngineCall.GetPlayoutDeviceName hn
      simpa [Media.GetAudioPlayoutDevices, hc, hhw] using this
    · have := enumerateAudioDevices_empty e.GetVoEHardware VoEHardware.GetNumOfPlayoutDevices
        VoEHardware.GetPlayoutDeviceName EngineCall.GetNumOfPlayoutDevices
        EngineCall.GetPlayoutDeviceName h
      simpa [Media.GetAudioPlayoutDevices, hc] using this

/-- C8 at a concrete object: a refresh of the capture list from `sampleHardware`
caches the one reported device, "Microphone" with id "guid-mic". -/
theorem C8_returned_list_mirrors_cache_witness :
    (({ sampleMedia with _audioCaptureDeviceChanged := true }).GetAudioCaptureDevices
        sampleEngine).media.g_audioCapturerDevices[0]? = some ⟨"Microphone", "guid-mic"⟩ :=
  ((C8_returned_list_mirrors_cache { sampleMedia with _audioCaptureDeviceChanged := true }
      sampleEngine).2.1.2.2 rfl).1 sampleHardware rfl rfl |>.2 0 (by decide)

/-! ## Media: device-watcher events -/

/-- The watchers of an object that has just been constructed are distinct when
the host runtime hands out a new watcher per device class. -/
theorem CreateMedia_watchersDistinct (e : Engine) (v a p : List Device)
    (h : Function.Injective e.CreateWatcher) : (Media.CreateMedia e v a p).watchersDistinct := by
  unfold Media.CreateMedia Media.SubscribeToMediaDeviceChanges Media.watchersDistinct
  cases e.DevManagerInit
  · simp
  · have h1 : e.CreateWatcher DeviceClass.VideoCapture ≠ e.CreateWatcher DeviceClass.AudioCapture :=
      fun hh => by have := h hh; cases this
    have h2 : e.CreateWatcher DeviceClass.VideoCapture ≠ e.CreateWatcher DeviceClass.AudioRender :=
      fun hh => by have := h hh; cases this
    have h3 : e.CreateWatcher DeviceClass.AudioCapture ≠ e.CreateWatcher DeviceClass.AudioRender :=
      fun hh => by have := h hh; cases this
    simp [h1, h2, h3]

/-- Both handlers on an event whose sender is the watcher of a device type, for
distinct watchers: the flag of that type and one notification. -/
theorem event_of_watcher (m : Media) (sender : DeviceWatcher) (updateInfo : DeviceInformationUpdate)
    (hd : m.watchersDistinct) (hs : sender.Status = DeviceWatcherStatus.EnumerationCompleted)
    (t : MediaDeviceType) (ht : m.watcherOf t = some sender.handle) :
    (m.OnMediaDeviceAdded sender).media = m.withChanged t ∧
    (m.OnMediaDeviceAdded sender).notifications = [t] ∧
    (m.OnMediaDeviceRemoved sender updateInfo).media = m.withChanged t ∧
    (m.OnMediaDeviceRemoved sender updateInfo).notifications = [t] := by
  obtain ⟨d1, d2, d3⟩ := hd
  cases t
  · -- audio capture
    have ha : m._audioCaptureWatcher = some sender.handle := ht
    have hv : ¬ (some sender.handle = m._videoCaptureWatcher) := by
      intro hv
      rcases d1 with d1 | d1
      · rw [d1] at hv; cases hv
      · exact d1 (by rw [← hv, ha])
    simp [Media.OnMediaDeviceAdded, Media.OnMediaDeviceRemoved, Media.withChanged, hs, hv, ha]
  · -- audio playout
    have hp : m._audioPlayoutWatcher = some sender.handle := ht
    have hv : ¬ (some sender.handle = m._videoCaptureWatcher) := by
      intro hv
      rcases d2 with d2 | d2
      · rw [d2] at hv; cases hv
      · exact d2 (by rw [← hv, hp])
    have ha : ¬ (some sender.handle = m._audioCaptureWatcher) := by
      intro ha
      rcases d3 with d3 | d3
      · rw [d3] at ha; cases ha
      · exact d3 (by rw [← ha, hp])
    simp [Media.OnMediaDeviceAdded, Media.OnMediaDeviceRemoved, Media.withChanged, hs, hv, ha, hp]
  · -- video capture
    have hv : m._videoCaptureWatcher = some sender.handle := ht
    simp [Media.OnMediaDeviceAdded, Media.OnMediaDeviceRemoved, Media.withChanged, hs, hv]

/-- Setting the changed flag of one type sets that flag and touches neither the
other two flags nor the cached vectors, the selections or the watchers. -/
theorem withChanged_frame (m : Media) (t : MediaDeviceType) :
    (m.withChanged t).changedFlag t = true ∧
    (∀ u : MediaDeviceType, u ≠ t → (m.withChanged t).changedFlag u = m.changedFlag u) ∧
    (m.withChanged t).sameDevices m := by
  cases t <;>
    refine ⟨rfl, fun u hu => ?_, rfl, rfl, rfl, rfl, rfl, rfl, rfl, rfl, rfl⟩ <;>
    cases u <;> first | rfl | exact absurd rfl hu

/-- C9: for every event delivered to `OnMediaDeviceAdded` or
`OnMediaDeviceRemoved` of an object with distinct watchers: when the status of
the sender is not `EnumerationCompleted`, the object is left as it is and no
notification is raised; otherwise, when the sender is the watcher of a device
type, the changed flag of that type is true afterwards, the other two flags,
the cached vectors and the selections are as before, and exactly one
`OnMediaDevicesChanged` notification, carrying that type, is raised; when the
sender is none of the three watchers, the object is left as it is and no
notification is raised. -/
theorem C9_device_watcher_events (m : Media) (sender : DeviceWatcher)
    (updateInfo : DeviceInformationUpdate) (hd : m.watchersDistinct) :
    (sender.Status ≠ DeviceWatcherStatus.EnumerationCompleted →
      (m.OnMediaDeviceAdded sender).media = m ∧
      (m.OnMediaDeviceAdded sender).notifications = [] ∧
      (m.OnMediaDeviceRemoved sender updateInfo).media = m ∧
      (m.OnMediaDeviceRemoved sender updateInfo).notifications = []) ∧
    (sender.Status = DeviceWatcherStatus.EnumerationCompleted →
      (∀ t : MediaDeviceType, m.watcherOf t = some sender.handle →
        ((m.OnMediaDeviceAdded sender).media.changedFlag t = true ∧
          (∀ u : MediaDeviceType, u ≠ t →
            (m.OnMediaDeviceAdded sender).media.changedFlag u = m.changedFlag u) ∧
          (m.OnMediaDeviceAdded sender).media.sameDevices m ∧
          (m.OnMediaDeviceAdded sender).notifications = [t]) ∧
        ((m.OnMediaDeviceRemoved sender updateInfo).media.changedFlag t = true ∧
          (∀ u : MediaDeviceType, u ≠ t →
            (m.OnMediaDeviceRemoved sender updateInfo).media.changedFlag u = m.changedFlag u) ∧
          (m.OnMediaDeviceRemoved sender updateInfo).media.sameDevices m ∧
          (m.OnMediaDeviceRemoved sender updateInfo).notifications = [t])) ∧
      ((∀ t : MediaDeviceType, m.watcherOf t ≠ some sender.handle) →
        (m.OnMediaDeviceAdded sender).media = m ∧
        (m.OnMediaDeviceAdded sender).notifications = [] ∧
        (m.OnMediaDeviceRemoved sender updateInfo).media = m ∧
        (m.OnMediaDeviceRemoved sender updateInfo).notifications = [])) := by
  refine ⟨fun hs => ?_, fun hs => ⟨fun t ht => ?_, fun hn => ?_⟩⟩
  · simp [Media.OnMediaDeviceAdded, Media.OnMediaDeviceRemoved, hs]
  · obtain ⟨h1, h2, h3, h4⟩ := event_of_watcher m sender updateInfo hd hs t ht
    obtain ⟨f1, f2, f3⟩ := withChanged_frame m t
    rw [h1, h2, h3, h4]
    exact ⟨⟨f1, f2, f3, rfl⟩, ⟨f1, f2, f3, rfl⟩⟩
  · have hv : ¬ (some sender.handle = m._videoCaptureWatcher) :=
      fun h => hn MediaDeviceType.MediaDeviceType_VideoCapture h.symm
    have ha : ¬ (some sender.handle = m._audioCaptureWatcher) :=
      fun h => hn MediaDeviceType.MediaDeviceType_AudioCapture h.symm
    have hp : ¬ (some sender.handle = m._audioPlayoutWatcher) :=
      fun h => hn MediaDeviceType.MediaDeviceType_AudioPlayout h.symm
    simp [Media.OnMediaDeviceAdded, Media.OnMediaDeviceRemoved, hs, hv, ha, hp]

/-- C9 at a concrete object: an event of the audio capture watcher (handle 2)
after the enumeration raises one notification, for audio capture. -/
theorem C9_device_watcher_events_witness :
    sampleMedia.watchersDistinct ∧
    (sampleMedia.OnMediaDeviceAdded ⟨2, DeviceWatcherStatus.EnumerationCompleted⟩).notifications =
      [MediaDeviceType.MediaDeviceType_AudioCapture] :=
  ⟨by decide,
   (((C9_device_watcher_events sampleMedia ⟨2, DeviceWatcherStatus.EnumerationCompleted⟩ ⟨"x"⟩
      (by decide)).2 rfl).1 MediaDeviceType.MediaDeviceType_AudioCapture rfl).1.2.2.2⟩

/-! ## Media: selecting and using a video device -/

/-- The video search loop stops at the first device of the list with the id. -/
theorem selectVideoLoop_first (id : String) (selected : Device) (l : List Device)
    (h : ∃ d ∈ l, d.id = id) :
    ∃ before after : List Device,
      l = before ++ selectVideoLoop id selected l :: after ∧
      (selectVideoLoop id selected l).id = id ∧ ∀ d ∈ before, d.id ≠ id := by
  induction l with
  | nil => simp at h
  | cons x xs ih =>
    by_cases hx : x.id = id
    · exact ⟨[], xs, by simp [selectVideoLoop, hx], by simp [selectVideoLoop, hx], by simp⟩
    · have h2 : ∃ d ∈ xs, d.id = id := by
        obtain ⟨d, hd, hid⟩ := h
        rcases List.mem_cons.mp hd with hd | hd
        · exact absurd (hd ▸ hid) hx
        · exact ⟨d, hd, hid⟩
      obtain ⟨before, after, h3, h4, h5⟩ := ih h2
      refine ⟨x :: before, after, ?_, ?_, ?_⟩
      · simp only [selectVideoLoop, hx, if_false, List.cons_append]
        exact congrArg (List.cons x) h3
      · simpa [selectVideoLoop, hx] using h4
      · intro d hd
        rcases List.mem_cons.mp hd with hd | hd
        · exact hd ▸ hx
        · exact h5 d hd

/-- The video search loop leaves the selection it started with when no device of
the list has the id. -/
theorem selectVideoLoop_none (id : String) (selected : Device) (l : List Device)
    (h : ∀ d ∈ l, d.id ≠ id) : selectVideoLoop id selected l = selected := by
  induction l with
  | nil => rfl
  | cons x xs ih =>
    have hx : x.id ≠ id := h x (List.mem_cons_self x xs)
    have h2 : ∀ d ∈ xs, d.id ≠ id := fun d hd => h d (List.mem_cons_of_mem x hd)
    simpa [selectVideoLoop, hx] using ih h2

/-- The capturer loop stops at the first device the device manager hands out a
capturer for. -/
theorem firstCapturerLoop_first (e : Engine) (before after : List Device) (d : Device)
    (c : VideoCapturer) (hb : ∀ x ∈ before, e.CreateVideoCapturer x = none)
    (hd : e.CreateVideoCapturer d = some c) :
    firstCapturerLoop e (before ++ d :: after) =
      (some c, (before ++ [d]).map EngineCall.CreateVideoCapturer) := by
  induction before with
  | nil => simp [firstCapturerLoop, hd]
  | cons x xs ih =>
    have hx : e.CreateVideoCapturer x = none := hb x (List.mem_cons_self x xs)
    have h2 : ∀ y ∈ xs, e.CreateVideoCapturer y = none :=
      fun y hy => hb y (List.mem_cons_of_mem x hy)
    simp [firstCapturerLoop, hx, ih h2]

/-- The capturer loop tries every device and ends without a capturer when the
device manager hands out none. -/
theorem firstCapturerLoop_none (e : Engine) (l : List Device)
    (h : ∀ x ∈ l, e.CreateVideoCapturer x = none) :
    firstCapturerLoop e l = (none, l.map EngineCall.CreateVideoCapturer) := by
  induction l with
  | nil => rfl
  | cons x xs ih =>
    have hx : e.CreateVideoCapturer x = none := h x (List.mem_cons_self x xs)
    have h2 : ∀ y ∈ xs, e.CreateVideoCapturer y = none :=
      fun y hy => h y (List.mem_cons_of_mem x hy)
    simp [firstCapturerLoop, hx, ih h2]

/-- Reading the devices back from a run of `CreateVideoCapturer` calls. -/
theorem capturerDevice_map (l : List Device) :
    (l.map EngineCall.CreateVideoCapturer).filterMap EngineCall.capturerDevice = l := by
  induction l with
  | nil => rfl
  | cons x xs ih => simp [EngineCall.capturerDevice, ih]

/-- A run of `CreateVideoCapturer` calls adds no track. -/
theorem addedTrack_map (cls : TrackClass) (l : List Device) :
    (l.map EngineCall.CreateVideoCapturer).filterMap (EngineCall.addedTrack cls) = [] := by
  induction l with
  | nil => rfl
  | cons x xs ih => simp [EngineCall.addedTrack, ih]

/-- The audio block of `GetUserMedia` asks for no capturer and adds no video
track. -/
theorem userMediaAudio_no_video (m : Media) (e : Engine) (rand : Nat)
    (stream : MediaStreamInterface) :
    capturersTried (m.userMediaAudio e rand stream).2 = [] ∧
    tracksAdded TrackClass.video (m.userMediaAudio e rand stream).2 = [] := by
  have h1 := checkAudioDevices_filterMap EngineCall.capturerDevice m e rfl rfl (fun _ => rfl) rfl
    (fun _ => rfl)
  have h2 := checkAudioDevices_filterMap (EngineCall.addedTrack TrackClass.video) m e rfl rfl
    (fun _ => rfl) rfl (fun _ => rfl)
  constructor
  · unfold capturersTried Media.userMediaAudio
    simp [h1, EngineCall.capturerDevice]
  · unfold tracksAdded Media.userMediaAudio
    simp [h2, EngineCall.addedTrack]

/-- With video enabled, the capturers `GetUserMedia` asks for and the video
tracks it adds are those of its video block. -/
theorem GetUserMedia_video (m : Media) (e : Engine) (audioEnabled : Bool)
    (stream : MediaStreamInterface) :
    capturersTried (m.GetUserMedia e ⟨audioEnabled, true⟩).calls =
      capturersTried
        (m.userMediaVideo e (e.CreateRandomId64 (if audioEnabled then 2 else 1)) stream).2 ∧
    tracksAdded TrackClass.video (m.GetUserMedia e ⟨audioEnabled, true⟩).calls =
      tracksAdded TrackClass.video
        (m.userMediaVideo e (e.CreateRandomId64 (if audioEnabled then 2 else 1)) stream).2 := by
  have h1 := fun st => (userMediaAudio_no_video m e (e.CreateRandomId64 1) st).1
  have h2 := fun st => (userMediaAudio_no_video m e (e.CreateRandomId64 1) st).2
  have hs := fun r st => userMediaVideo_calls m e r st stream
  simp only [capturersTried, tracksAdded] at h1 h2 ⊢
  unfold Media.GetUserMedia
  cases audioEnabled <;>
    simp [h1, h2, hs, EngineCall.capturerDevice, EngineCall.addedTrack]

/-- C10: `SelectVideoDevice` selects the first cached video device whose id is
the id of the argument, and a device with empty id and empty name when no cached
device has that id. When the id of the selected video device is empty,
`GetUserMedia` with video enabled asks the device manager for a capturer device
by device in the order of the cached list, stops at the first device it gets one
for and adds one video track made from that capturer; it adds no video track
when it gets none (in particular on an empty cache). When the id is not empty,
it asks for the selected device only. -/
theorem C10_video_device_selection (m : Media) (e : Engine) (device : MediaDevice)
    (audioEnabled : Bool) :
    ((∃ d ∈ m.g_videoDevices, d.id = device.Id) →
      ∃ before after : List Device,
        m.g_videoDevices = before ++ (m.SelectVideoDevice device)._selectedVideoDevice :: after ∧
        (m.SelectVideoDevice device)._selectedVideoDevice.id = device.Id ∧
        ∀ d ∈ before, d.id ≠ device.Id) ∧
    ((∀ d ∈ m.g_videoDevices, d.id ≠ device.Id) →
      (m.SelectVideoDevice device)._selectedVideoDevice = ⟨"", ""⟩) ∧
    (m._selectedVideoDevice.id = "" →
      (∀ (before after : List Device) (d : Device) (c : VideoCapturer),
        m.g_videoDevices = before ++ d :: after →
        (∀ x ∈ before, e.CreateVideoCapturer x = none) → e.CreateVideoCapturer d = some c →
        capturersTried (m.GetUserMedia e ⟨audioEnabled, true⟩).calls = before ++ [d] ∧
        tracksAdded TrackClass.video (m.GetUserMedia e ⟨audioEnabled, true⟩).calls =
          [e.CreateVideoTrack
            (_snprintf 32 kVideoLabel (e.CreateRandomId64 (if audioEnabled then 2 else 1))) c]) ∧
      ((∀ x ∈ m.g_videoDevices, e.CreateVideoCapturer x = none) →
        capturersTried (m.GetUserMedia e ⟨audioEnabled, true⟩).calls = m.g_videoDevices ∧
        tracksAdded TrackClass.video (m.GetUserMedia e ⟨audioEnabled, true⟩).calls = [])) ∧
    (m._selectedVideoDevice.id ≠ "" →
      capturersTried (m.GetUserMedia e ⟨audioEnabled, true⟩).calls = [m._selectedVideoDevice]) := by
  obtain ⟨hc, ht⟩ := GetUserMedia_video m e audioEnabled
    (e.CreateLocalMediaStream (_snprintf 32 kStreamLabel (e.CreateRandomId64 0)))
  rw [hc, ht]
  refine ⟨fun h => selectVideoLoop_first _ _ _ h, fun h => ?_, fun hid => ⟨?_, ?_⟩, fun hid => ?_⟩
  · simpa [Media.SelectVideoDevice] using selectVideoLoop_none (FromCx device.Id) ⟨"", ""⟩ _ h
  · intro before after d c hl hb hd
    have hloop := firstCapturerLoop_first e before after d c hb hd
    unfold Media.userMediaVideo
    simp only [hid, hl, hloop, if_true]
    constructor
    · rw [capturersTried, List.filterMap_append, capturerDevice_map]
      simp [EngineCall.capturerDevice]
    · rw [tracksAdded, List.filterMap_append, addedTrack_map]
      simp [EngineCall.addedTrack]
  · intro hn
    have hloop := firstCapturerLoop_none e m.g_videoDevices hn
    unfold Media.userMediaVideo
    simp only [hid, hloop, if_true]
    exact ⟨capturerDevice_map _, addedTrack_map _ _⟩
  · unfold capturersTried Media.userMediaVideo
    cases hc2 : e.CreateVideoCapturer m._selectedVideoDevice <;>
      simp [hid, hc2, EngineCall.capturerDevice]

/-- C10 at a concrete object: with no video device selected, the cached devices
"cam0" and "cam1" are tried in this order, and the capturer of "cam1", the first
one the device manager hands out, makes the video track. -/
theorem C10_video_device_selection_witness :
    capturersTried (sampleMedia.GetUserMedia sampleEngine ⟨true, true⟩).calls =
      [⟨"Front", "cam0"⟩, ⟨"Back", "cam1"⟩] ∧
    tracksAdded TrackClass.video (sampleMedia.GetUserMedia sampleEngine ⟨true, true⟩).calls =
      [sampleEngine.CreateVideoTrack
        (_snprintf 32 kVideoLabel (sampleEngine.CreateRandomId64 2)) ⟨7⟩] :=
  ((C10_video_device_selection sampleMedia sampleEngine ⟨"cam1", "Back"⟩ true).2.2.1 rfl).1
    [⟨"Front", "cam0"⟩] [] ⟨"Back", "cam1"⟩ ⟨7⟩ rfl (by decide) (by decide)

/-! ## Media: a failed audio selection -/

/-- The id of `Device(name, 0)` is the text "0". -/
theorem ofInt_zero_id (name : String) : (Device.ofInt name 0).id = "0" := by
  show toString (0 : Int) = "0"
  decide

/-- C11: whatever device was selected before, when `SelectAudioDevice` (resp.
`SelectAudioPlayoutDevice`) returns false the selected capture (resp. playout)
device is the device with name `kDefaultDeviceName` and empty id, so the
previous selection is lost; the constructor instead selects
`Device(kDefaultDeviceName, 0)`, whose id, "0", is not empty, so the two states
differ. -/
theorem C11_failed_selection_resets (m : Media) (e : Engine) (device : MediaDevice)
    (v a p : List Device) :
    ((m.SelectAudioDevice e device).2 = false →
      (m.SelectAudioDevice e device).1._selectedAudioCapturerDevice =
        ⟨e.kDefaultDeviceName, ""⟩) ∧
    ((m.SelectAudioPlayoutDevice e device).2 = false →
      (m.SelectAudioPlayoutDevice e device).1._selectedAudioPlayoutDevice =
        ⟨e.kDefaultDeviceName, ""⟩) ∧
    (Media.CreateMedia e v a p)._selectedAudioCapturerDevice =
      Device.ofInt e.kDefaultDeviceName 0 ∧
    (Media.CreateMedia e v a p)._selectedAudioPlayoutDevice =
      Device.ofInt e.kDefaultDeviceName 0 ∧
    (Device.ofInt e.kDefaultDeviceName 0).name = e.kDefaultDeviceName ∧
    (Device.ofInt e.kDefaultDeviceName 0).id = "0" ∧
    Device.ofInt e.kDefaultDeviceName 0 ≠ ⟨e.kDefaultDeviceName, ""⟩ := by
  refine ⟨fun h => selectAudioLoop_false _ _ _ h, fun h => selectAudioLoop_false _ _ _ h,
    ?_, ?_, rfl, ofInt_zero_id _, ?_⟩
  · unfold Media.CreateMedia Media.SubscribeToMediaDeviceChanges
    cases e.DevManagerInit <;> rfl
  · unfold Media.CreateMedia Media.SubscribeToMediaDeviceChanges
    cases e.DevManagerInit <;> rfl
  · intro h
    have hid : (Device.ofInt e.kDefaultDeviceName 0).id = "" := by rw [h]
    rw [ofInt_zero_id] at hid
    exact absurd hid (by decide)

/-- C11 at a concrete object: "Microphone (USB)" is selected, the id "gone" is
not cached, `SelectAudioDevice` returns false and leaves the default name with
an empty id selected. -/
theorem C11_failed_selection_resets_witness :
    sampleMedia._selectedAudioCapturerDevice = ⟨"Microphone (USB)", "guid-usb"⟩ ∧
    (sampleMedia.SelectAudioDevice sampleEngine ⟨"gone", "x"⟩).2 = false ∧
    (sampleMedia.SelectAudioDevice sampleEngine ⟨"gone", "x"⟩).1._selectedAudioCapturerDevice =
      ⟨"", ""⟩ :=
  ⟨rfl, by decide,
   (C11_failed_selection_resets sampleMedia sampleEngine ⟨"gone", "x"⟩ [] [] []).1 (by decide)⟩

/-! ## MediaStream: Active, GetTracks, GetTrackById -/

/-- A loop of `Active` ends with `ret` true exactly when it started with `ret`
true or some track of the list has a state below `kEnded`. -/
theorem activeLoop_eq_true (kEnded : Nat) (ret : Bool) (l : List MediaStreamTrackInterface) :
    activeLoop kEnded ret l = true ↔ ret = true ∨ ∃ t ∈ l, t.state < kEnded := by
  induction l generalizing ret with
  | nil => simp [activeLoop]
  | cons x xs ih =>
    have hstep : activeLoop kEnded ret (x :: xs) =
        activeLoop kEnded (if x.state < kEnded then true else ret) xs := rfl
    by_cases hx : x.state < kEnded
    · rw [hstep, if_pos hx, ih]
      constructor
      · intro _
        exact Or.inr ⟨x, List.mem_cons_self x xs, hx⟩
      · intro _
        exact Or.inl rfl
    · rw [hstep, if_neg hx, ih]
      constructor
      · rintro (h | ⟨t, ht, hlt⟩)
        · exact Or.inl h
        · exact Or.inr ⟨t, List.mem_cons_of_mem x ht, hlt⟩
      · rintro (h | ⟨t, ht, hlt⟩)
        · exact Or.inl h
        · rcases List.mem_cons.mp ht with ht | ht
          · exact absurd (ht ▸ hlt) hx
          · exact Or.inr ⟨t, ht, hlt⟩

/-- The getter `Active` on a stream that holds an engine reference. -/
theorem Active_eq_true (kEnded : Nat) (impl : MediaStreamInterface) :
    (MediaStream.mk (some impl)).Active kEnded = true ↔
      (∃ t ∈ impl.GetAudioTracks, t.state < kEnded) ∨
      (∃ t ∈ impl.GetVideoTracks, t.state < kEnded) := by
  simp only [MediaStream.Active, activeLoop_eq_true]
  simp

/-- C12: on a stream that holds an engine reference, `Active` returns true
exactly when at least one of its audio or video tracks has a state strictly
below `kEnded`; so it returns false on a stream without tracks and on a stream
all of whose tracks have ended. -/
theorem C12_active_iff_track_not_ended (kEnded : Nat) (impl : MediaStreamInterface) :
    ((MediaStream.mk (some impl)).Active kEnded = true ↔
      (∃ t ∈ impl.GetAudioTracks, t.state < kEnded) ∨
      (∃ t ∈ impl.GetVideoTracks, t.state < kEnded)) ∧
    (impl.GetAudioTracks = [] → impl.GetVideoTracks = [] →
      (MediaStream.mk (some impl)).Active kEnded = false) ∧
    ((∀ t ∈ impl.GetAudioTracks, t.state = kEnded) →
      (∀ t ∈ impl.GetVideoTracks, t.state = kEnded) →
      (MediaStream.mk (some impl)).Active kEnded = false) := by
  refine ⟨Active_eq_true kEnded impl, fun ha hv => ?_, fun ha hv => ?_⟩
  · rw [← Bool.not_eq_true, Active_eq_true, ha, hv]
    simp
  · rw [← Bool.not_eq_true, Active_eq_true]
    rintro (⟨t, ht, hlt⟩ | ⟨t, ht, hlt⟩)
    · exact absurd hlt (by rw [ha t ht]; exact Nat.lt_irrefl _)
    · exact absurd hlt (by rw [hv t ht]; exact Nat.lt_irrefl _)

/-- C12 at concrete streams: with `kEnded = 2`, a stream whose only tracks have
state 2 is not active, and `sampleStream`, with a live audio track, is. -/
theorem C12_active_iff_track_not_ended_witness :
    (MediaStream.mk (some ⟨"s", [⟨"audio", "a0", true, 2⟩], [⟨"video", "v0", true, 2⟩],
        fun _ => none, fun _ => none⟩)).Active 2 = false ∧
    (MediaStream.mk (some sampleStream)).Active 2 = true :=
  ⟨(C12_active_iff_track_not_ended 2 ⟨"s", [⟨"audio", "a0", true, 2⟩],
      [⟨"video", "v0", true, 2⟩], fun _ => none, fun _ => none⟩).2.2 (by decide) (by decide),
   (C12_active_iff_track_not_ended 2 sampleStream).1.mpr
     (Or.inl ⟨⟨"audio", "a0", true, 1⟩, by decide, by decide⟩)⟩

/-- C13: on a stream that holds an engine reference, `GetTracks` returns the
audio tracks in engine order followed by the video tracks in engine order, as
many as both together; `GetTrackById` returns a track exactly when the engine
finds an audio or a video track with the id; it returns the wrapper of the audio
track whenever the engine finds one, the wrapper of the video track when only
that is found, and it looks for a video track only when no audio track was
found. -/
theorem C13_tracks_and_lookup (impl : MediaStreamInterface) (trackId : String) :
    (MediaStream.mk (some impl)).GetTracks =
      some ((impl.GetAudioTracks.map fun t => IMediaStreamTrack.audio ⟨t⟩) ++
        (impl.GetVideoTracks.map fun t => IMediaStreamTrack.video ⟨t⟩)) ∧
    (∀ tracks, (MediaStream.mk (some impl)).GetTracks = some tracks →
      tracks.length = impl.GetAudioTracks.length + impl.GetVideoTracks.length) ∧
    ((MediaStream.mk (some impl)).GetTrackById trackId ≠ none ↔
      (impl.FindAudioTrack trackId ≠ none ∨ impl.FindVideoTrack trackId ≠ none)) ∧
    (∀ audioTrack, impl.FindAudioTrack trackId = some audioTrack →
      (MediaStream.mk (some impl)).GetTrackById trackId =
        some (IMediaStreamTrack.audio ⟨audioTrack⟩)) ∧
    (∀ videoTrack, impl.FindAudioTrack trackId = none →
      impl.FindVideoTrack trackId = some videoTrack →
      (MediaStream.mk (some impl)).GetTrackById trackId =
        some (IMediaStreamTrack.video ⟨videoTrack⟩)) ∧
    (StreamLookup.FindVideoTrack trackId ∈
        (MediaStream.mk (some impl)).GetTrackByIdLookups trackId ↔
      impl.FindAudioTrack trackId = none) ∧
    (∃ rest, (MediaStream.mk (some impl)).GetTrackByIdLookups trackId =
      StreamLookup.FindAudioTrack trackId :: rest) := by
  refine ⟨rfl, ?_, ?_, ?_, ?_, ?_, ?_⟩
  · intro tracks h
    simp only [MediaStream.GetTracks, Option.some.injEq] at h
    rw [← h]
    simp
  · simp only [MediaStream.GetTrackById, FromCx]
    cases ha : impl.FindAudioTrack trackId with
    | some a => simp
    | none => cases hv : impl.FindVideoTrack trackId <;> simp
  · intro a ha
    simp [MediaStream.GetTrackById, FromCx, ha]
  · intro vt ha hv
    simp [MediaStream.GetTrackById, FromCx, ha, hv]
  · simp only [MediaStream.GetTrackByIdLookups, FromCx]
    cases ha : impl.FindAudioTrack trackId <;> simp
  · simp only [MediaStream.GetTrackByIdLookups, FromCx]
    cases ha : impl.FindAudioTrack trackId <;> simp

/-- C13 at a concrete stream: on `sampleStream` the id "a0" yields the audio
wrapper and the id "v0" the video wrapper. -/
theorem C13_tracks_and_lookup_witness :
    (MediaStream.mk (some sampleStream)).GetTrackById "a0" =
      some (IMediaStreamTrack.audio ⟨⟨"audio", "a0", true, 1⟩⟩) ∧
    (MediaStream.mk (some sampleStream)).GetTrackById "v0" =
      some (IMediaStreamTrack.video ⟨⟨"video", "v0", true, 2⟩⟩) :=
  ⟨(C13_tracks_and_lookup sampleStream "a0").2.2.2.1 ⟨"audio", "a0", true, 1⟩ (by decide),
   (C13_tracks_and_lookup sampleStream "v0").2.2.2.2.1 ⟨"video", "v0", true, 2⟩ (by decide)
     (by decide)⟩

/-! ## MediaDevice::GetVideoCaptureCapabilities -/

end webrtc_winrt_api
